import Mathlib

/-!
Shallow embedding of the POC-SPA route-to-risk pipeline
(`src/backend/hotspot_analyzer.py` and `src/backend/rtz_parser.py`).

Python dicts are modelled as structures; dict keys whose absence the code
can observe (hotspot `id`, `name`, geometry, metadata, waypoint `eta`) are
`Option` fields.  Fallible Python code (uncaught `KeyError` / `ValueError`)
is modelled with `Except String`.  External libraries are parameters of the
embedded functions: the shapely geometry constructor and intersection test,
the stdlib `datetime.fromisoformat`, and the floating-point haversine
distance (a `ℚ`-valued distance-function parameter; claims about distances
are proved for every such function).
-/

namespace RoutePipeline

/-! Structurally recursive models of the string operations the source
relies on (`str.split` with a one-character separator, `str.strip`,
`str.replace` with a one-character pattern), so that every concrete run
of the pipeline evaluates inside the kernel. -/

/-- `s.split(sep)` for a single-character separator. -/
def _chars_split (sep : Char) : List Char → List (List Char)
  | [] => [[]]
  | c :: rest =>
    if c = sep then [] :: _chars_split sep rest
    else
      match _chars_split sep rest with
      | [] => [[c]]
      | h :: t => (c :: h) :: t

def _py_split (sep : Char) (s : String) : List String :=
  (_chars_split sep s.data).map String.mk

def _is_space (c : Char) : Bool :=
  c = ' ' || c = Char.ofNat 9 || c = Char.ofNat 10 || c = Char.ofNat 11 ||
    c = Char.ofNat 12 || c = Char.ofNat 13

/-- `s.strip()` (ASCII whitespace). -/
def _py_strip (s : String) : String :=
  String.mk (((s.data.dropWhile _is_space).reverse.dropWhile _is_space).reverse)

def _replace_char (pat : Char) (r : List Char) : List Char → List Char
  | [] => []
  | c :: rest =>
    if c = pat then r ++ _replace_char pat r rest
    else c :: _replace_char pat r rest

/-- `s.replace(pat, r)` for a single-character pattern (all occurrences). -/
def _py_replace (pat : Char) (r : String) (s : String) : String :=
  String.mk (_replace_char pat r.data s.data)

def _starts_with (p : Char) (s : String) : Bool :=
  match s.data with
  | [] => false
  | c :: _ => c = p

/-- Model of Python `int(s)`: optional surrounding whitespace, optional
sign, then at least one decimal digit.  (Digit-group underscores and other
exotic accepted forms are out of scope; no claim exercises them.) -/
def _digits_val (s : String) : Nat :=
  s.data.foldl (fun n c => n * 10 + (c.toNat - 48)) 0

def _nat_digits (s : String) : Option Nat :=
  if s.isEmpty then none
  else if s.data.all Char.isDigit then some (_digits_val s)
  else none

def pyIntOfString (s : String) : Option Int :=
  let t := _py_strip s
  if _starts_with '-' t then (_nat_digits (String.mk (t.data.drop 1))).map (fun n => -(n : Int))
  else if _starts_with '+' t then (_nat_digits (String.mk (t.data.drop 1))).map (fun n => (n : Int))
  else (_nat_digits t).map (fun n => (n : Int))

/-- Unsigned decimal mantissa of a Python float literal: `d+`, `d+.d*`,
`.d+` or `d+.d+`. -/
def _mantissa (s : String) : Option ℚ :=
  match _py_split '.' s with
  | [a] => (_nat_digits a).map (fun n => (n : ℚ))
  | [a, b] =>
    if a.isEmpty && b.isEmpty then none
    else if (a.isEmpty || a.data.all Char.isDigit) &&
            (b.isEmpty || b.data.all Char.isDigit) then
      some ((_digits_val a : ℚ) + (_digits_val b : ℚ) / (10 ^ b.length))
    else none
  | _ => none

def _signed_mantissa (s : String) : Option ℚ :=
  if _starts_with '-' s then (_mantissa (String.mk (s.data.drop 1))).map Neg.neg
  else if _starts_with '+' s then _mantissa (String.mk (s.data.drop 1))
  else _mantissa s

/-- Model of Python `float(s)`: optional whitespace, optional sign, decimal
mantissa, optional `e`/`E` exponent.  (`inf`/`nan` and digit-group
underscores are modelled as unparsable; no claim exercises them.) -/
def pyFloatOfString (s : String) : Option ℚ :=
  let t := _py_replace 'E' "e" (_py_strip s)
  match _py_split 'e' t with
  | [m] => _signed_mantissa m
  | [m, ex] =>
    match _signed_mantissa m, pyIntOfString ex with
    | some q, some e =>
      if 0 ≤ e then some (q * 10 ^ e.toNat) else some (q / 10 ^ (-e).toNat)
    | _, _ => none
  | _ => none

/-- Round to the nearest integer, ties to even — the rounding mode of
Python `round` (the embedding works over `ℚ`, so exact decimal ties follow
the documented float behaviour). -/
def roundHalfEven (q : ℚ) : ℤ :=
  let f := ⌊q⌋
  let frac := q - f
  if frac < 1/2 then f
  else if 1/2 < frac then f + 1
  else if f % 2 = 0 then f else f + 1

/-- Model of Python `round(x, 1)`. -/
def pyRound1 (q : ℚ) : ℚ := (roundHalfEven (q * 10) : ℚ) / 10

/-- Python-dict lookup over an insertion-ordered association list: a later
binding of the same key overwrites an earlier one, exactly as repeated
`d[k] = v` assignments do. -/
def _dict_get {α β : Type} [BEq α] (m : List (α × β)) (k : α) : Option β :=
  m.foldl (fun acc p => if p.1 == k then some p.2 else acc) none

/-- The result of stdlib `datetime.fromisoformat`, reduced to the two
observations the analyzer makes of it: `.hour` and the
`strftime("%d %b %Y %H:%M UTC")` rendering. -/
structure PyDateTime where
  hour : Nat
  display : String
deriving DecidableEq, Repr

def _month_name (m : Nat) : String :=
  [("1", "Jan"), ("2", "Feb"), ("3", "Mar"), ("4", "Apr"), ("5", "May"),
   ("6", "Jun"), ("7", "Jul"), ("8", "Aug"), ("9", "Sep"), ("10", "Oct"),
   ("11", "Nov"), ("12", "Dec")].foldl
    (fun acc p => if p.1 = toString m then p.2 else acc) "?"

/-- Partial model of stdlib `datetime.fromisoformat`, covering the
canonical `YYYY-MM-DDTHH:MM:SS` / `YYYY-MM-DDTHH:MM:SS+HH:MM` timestamps
this repository feeds it.  All claims about `_eta_in_peak_window` are
proved for an arbitrary parser; this model only instantiates witnesses. -/
def fromisoformat_model (s : String) : Option PyDateTime :=
  match _py_split 'T' s with
  | [date, timeFull] =>
    match _py_split '-' date with
    | [y, mo, da] =>
      let timeCore := (_py_split '+' timeFull).headD ""
      (match _py_split ':' timeCore with
       | [hh, mm] => some (hh, mm, "00")
       | [hh, mm, ss] => some (hh, mm, ss)
       | _ => none).bind fun (hh, mm, ss) =>
        match _nat_digits y, _nat_digits mo, _nat_digits da,
              _nat_digits hh, _nat_digits mm, _nat_digits ss with
        | some _, some monum, some danum, some hnum, some minum, some snum =>
          if y.length = 4 && mo.length = 2 && da.length = 2 &&
             hh.length = 2 && mm.length = 2 && ss.length = 2 &&
             1 ≤ monum && monum ≤ 12 && 1 ≤ danum && danum ≤ 31 &&
             hnum < 24 && minum < 60 && snum < 60 then
            some { hour := hnum
                   display := da ++ " " ++ _month_name monum ++ " " ++ y
                     ++ " " ++ hh ++ ":" ++ mm ++ " UTC" }
          else none
        | _, _, _, _, _, _ => none
    | _ => none
  | _ => none

/-! ## Data model (`hotspot_analyzer.py` / `rtz_parser.py` dict shapes) -/

/-- `leg["riskAssessment"]` as built by `analyze_route`. -/
structure RiskAssessment where
  level : String
  intersectingHotspots : List String
  summary : String
deriving DecidableEq, Repr

/-- A leg dict.  The RTZ parser always sets the four navigation fields;
`analyze_route` can also create a bare `{}` leg carrying only a
`riskAssessment`, hence the `Option` navigation fields. -/
structure Leg where
  speedMax : Option ℚ
  portsideXTD : Option ℚ
  starboardXTD : Option ℚ
  geometryType : Option String
  riskAssessment : Option RiskAssessment
deriving DecidableEq, Repr

/-- The `{}` leg dict created by `leg = wp_copy.get("leg") or {}`. -/
def _empty_leg : Leg :=
  { speedMax := none, portsideXTD := none, starboardXTD := none
    geometryType := none, riskAssessment := none }

/-- A waypoint dict as produced by `parse_rtz` (all keys the pipeline
reads are present; `eta` holds `None` when no schedule entry exists). -/
structure Waypoint where
  id : Int
  revision : Int
  name : String
  lat : ℚ
  lon : ℚ
  leg : Option Leg
  eta : Option String
  legDistanceNm : ℚ
deriving DecidableEq, Repr

/-- `hotspot["metadata"]`; each field defaults exactly as the analyzer's
`dict.get` calls default it.  `avg_vessels_per_hour` is modelled as the
JSON integer the mock catalogue carries. -/
structure HotspotMetadata where
  avg_vessels_per_hour : Option Int
  peak_hours_utc : List String
  dominant_vessel_types : List String
  notes : String
deriving DecidableEq, Repr

/-- The `{}` default of `hs.get("metadata", {})`. -/
def _empty_metadata : HotspotMetadata :=
  { avg_vessels_per_hour := none, peak_hours_utc := [], dominant_vessel_types := []
    notes := "" }

/-- A hotspot record from the catalogue.  `G` is the type of the raw
GeoJSON `geometry` payload, handed to the (parameterised) shapely `shape`
constructor.  Keys the code reads with a mandatory subscript (`id`,
`name`) are `Option` so a missing key — an uncaught `KeyError` — is
representable. -/
structure Hotspot (G : Type) where
  id : Option String
  name : Option String
  type : Option String
  severity : Option String
  geometry : Option G
  metadata : Option HotspotMetadata
deriving DecidableEq, Repr

/-! ## Severity ranking and type mappings (`hotspot_analyzer.py` 21-65) -/

def SEVERITY_RANK : List (String × Int) := [("high", 3), ("medium", 2), ("low", 1)]

def _TYPE_TO_ADVISORY : List (String × String) :=
  [("high_traffic_density", "traffic_density_warning"),
   ("crossing_traffic", "crossing_traffic_alert"),
   ("congestion", "congestion_advisory"),
   ("fishing_activity", "fishing_activity_notice")]

def _ADVISORY_TITLE_TABLE : List (String × String) :=
  [("traffic_density_warning", "Traffic Density Warning"),
   ("crossing_traffic_alert", "Crossing Traffic Alert"),
   ("congestion_advisory", "Congestion Advisory"),
   ("fishing_activity_notice", "Fishing Activity Notice"),
   ("speed_recommendation", "Speed Recommendation"),
   ("arrival_window_advisory", "Arrival Window Advisory")]

def _ADVISORY_DEFAULT_SEVERITY : List (String × String) :=
  [("traffic_density_warning", "high"),
   ("crossing_traffic_alert", "high"),
   ("congestion_advisory", "medium"),
   ("fishing_activity_notice", "low"),
   ("speed_recommendation", "medium"),
   ("arrival_window_advisory", "medium")]

def _RECOMMENDED_ACTIONS : List (String × String) :=
  [("traffic_density_warning",
    "Enhanced radar/AIS monitoring. Maintain maximum lookout. Consider speed adjustment to arrive outside peak window."),
   ("crossing_traffic_alert",
    "Maintain heightened watch for crossing traffic. Reduce speed as required. Be prepared for evasive manoeuvring."),
   ("congestion_advisory",
    "Reduce speed when approaching the area. Monitor VHF channel 16. Co-ordinate with VTS if required."),
   ("fishing_activity_notice",
    "Maintain visual watch. Do not rely solely on AIS. Fishing vessels may not respond to VHF or radar.")]

/-! ## Peak-hour windows (`hotspot_analyzer.py` 145-169) -/

/-- `_parse_peak_hour_window`: parse `"06:00-10:00"` into the
`(start_hour, end_hour)` integer pair; any exception yields `None`. -/
def _parse_peak_hour_window (window : String) : Option (Int × Int) :=
  match _py_split '-' window with
  | [start, e] =>
    match pyIntOfString ((_py_split ':' start).headD ""),
          pyIntOfString ((_py_split ':' e).headD "") with
    | some s, some en => some (s, en)
    | _, _ => none
  | _ => none

/-- First window of the list that parses and contains `hour`. -/
def _first_matching_window (hour : Nat) : List String → Option String
  | [] => none
  | w :: rest =>
    match _parse_peak_hour_window w with
    | some p =>
      if p.1 ≤ (hour : Int) ∧ (hour : Int) < p.2 then some w
      else _first_matching_window hour rest
    | none => _first_matching_window hour rest

/-- `_eta_in_peak_window`: `(is_peak, matching_window)` for the given ETA.
`fromiso` is the stdlib `datetime.fromisoformat` (`none` = it raised);
`eta_str` is the waypoint's `eta` value (`none` = Python `None`). -/
def _eta_in_peak_window (fromiso : String → Option PyDateTime)
    (eta_str : Option String) (peak_hours_list : List String) :
    Bool × Option String :=
  if eta_str = none ∨ eta_str = some "" ∨ peak_hours_list = [] then (false, none)
  else
    match fromiso (_py_replace 'Z' "+00:00" (eta_str.getD "")) with
    | none => (false, none)
    | some d =>
      match _first_matching_window d.hour peak_hours_list with
      | some w => (true, some w)
      | none => (false, none)

/-! ## Route analysis (`hotspot_analyzer.py` 172-240)

`shapeFn` models `shapely.geometry.shape` (`none` = it raised) and
`itsFn` models `LineString(...).intersects(geom)` for the leg from
`(lon, lat)` to `(lon, lat)` (`none` = it raised). -/

def _hs_rank {G : Type} (h : Hotspot G) : Int :=
  (SEVERITY_RANK.lookup (h.severity.getD "low")).getD 0

/-- Pre-building of `shapely_hotspots`: zones whose geometry key is
missing or whose `shape(...)` raises are skipped. -/
def _prebuilt {G S : Type} (shapeFn : G → Option S) (hotspots : List (Hotspot G)) :
    List (Hotspot G × S) :=
  hotspots.filterMap fun hs => (hs.geometry.bind shapeFn).map fun g => (hs, g)

/-- Zones of the pre-built list intersecting the leg `w → w2`; an
exception inside `intersects` skips that zone for this leg. -/
def _leg_intersecting {G S : Type}
    (itsFn : ℚ × ℚ → ℚ × ℚ → S → Option Bool)
    (sh : List (Hotspot G × S)) (w w2 : Waypoint) : List (Hotspot G) :=
  (sh.filter fun p => (itsFn (w.lon, w.lat) (w2.lon, w2.lat) p.2).getD false).map
    fun p => p.1

/-- Python `max(intersecting, key=rank)`: first element attaining the
maximal rank. -/
def _max_by_rank {G : Type} : List (Hotspot G) → Option (Hotspot G)
  | [] => none
  | h :: t => some (t.foldl (fun best x => if _hs_rank best < _hs_rank x then x else best) h)

def _risk_level {G : Type} (inter : List (Hotspot G)) : String :=
  match _max_by_rank inter with
  | some h => h.severity.getD "low"
  | none => "low"

def _avg_display (m : HotspotMetadata) : String :=
  match m.avg_vessels_per_hour with
  | none => "?"
  | some n => toString n

/-- The summary fragment for one zone (requires the `name` key). -/
def _summary_parts {G : Type} : List (Hotspot G) → Except String (List String)
  | [] => .ok []
  | h :: t =>
    match h.name with
    | none => .error "KeyError: name"
    | some nm =>
      match _summary_parts t with
      | .error e => .error e
      | .ok rest =>
        .ok ((nm ++ ": avg " ++ _avg_display (h.metadata.getD _empty_metadata)
          ++ " vessels/hour.") :: rest)

/-- `[h["id"] for h in intersecting]` (requires the `id` key). -/
def _hs_id_list {G : Type} : List (Hotspot G) → Except String (List String)
  | [] => .ok []
  | h :: t =>
    match h.id with
    | none => .error "KeyError: id"
    | some i =>
      match _hs_id_list t with
      | .error e => .error e
      | .ok rest => .ok (i :: rest)

def _risk_for {G : Type} (inter : List (Hotspot G)) : Except String RiskAssessment :=
  match _summary_parts inter with
  | .error e => .error e
  | .ok parts =>
    match _hs_id_list inter with
    | .error e => .error e
    | .ok ids =>
      .ok { level := _risk_level inter, intersectingHotspots := ids
            summary := String.intercalate " " parts }

def _enrich_wp {G S : Type} (itsFn : ℚ × ℚ → ℚ × ℚ → S → Option Bool)
    (sh : List (Hotspot G × S)) (w w2 : Waypoint) : Except String Waypoint :=
  let inter := _leg_intersecting itsFn sh w w2
  if inter.isEmpty then .ok w
  else
    match _risk_for inter with
    | .error e => .error e
    | .ok risk =>
      .ok { w with leg := some { w.leg.getD _empty_leg with riskAssessment := some risk } }

def _analyze_go {G S : Type} (itsFn : ℚ × ℚ → ℚ × ℚ → S → Option Bool)
    (sh : List (Hotspot G × S)) : List Waypoint → Except String (List Waypoint)
  | [] => .ok []
  | [w] => .ok [w]
  | w :: w2 :: rest =>
    match _enrich_wp itsFn sh w w2 with
    | .error e => .error e
    | .ok wEnriched =>
      match _analyze_go itsFn sh (w2 :: rest) with
      | .error e => .error e
      | .ok tail => .ok (wEnriched :: tail)

/-- `analyze_route(waypoints, hotspots)`: annotate each leg
(`waypoint[i] → waypoint[i+1]`) that intersects one or more hotspot
zones with a `riskAssessment`. -/
def analyze_route {G S : Type} (shapeFn : G → Option S)
    (itsFn : ℚ × ℚ → ℚ × ℚ → S → Option Bool)
    (waypoints : List Waypoint) (hotspots : List (Hotspot G)) :
    Except String (List Waypoint) :=
  _analyze_go itsFn (_prebuilt shapeFn hotspots) waypoints

/-! ## Advisory generation (`hotspot_analyzer.py` 243-375) -/

structure WaypointRef where
  waypointId : Int
  name : String
deriving DecidableEq, Repr

structure TrafficDensity where
  value : Int
  unit : String
deriving DecidableEq, Repr

structure StructuredData where
  affectedLegStart : WaypointRef
  affectedLegEnd : WaypointRef
  trafficDensity : Option TrafficDensity
  vesselETA : Option String
  peakWindow : Option String
  inPeakWindow : Bool
  recommendedAction : String
deriving DecidableEq, Repr

structure Advisory where
  id : String
  timestamp : String
  type : String
  severity : String
  relatedWaypoints : List Int
  relatedHotspots : List String
  title : String
  message : String
  structuredData : StructuredData
  transmissionStatus : String
  transmissionMethod : String
deriving DecidableEq, Repr

def _ADV_DATE : String := "2026-04-27"

/-- Python `f"{counter:03d}"`. -/
def _pad3 (n : Nat) : String :=
  if n < 10 then "00" ++ toString n
  else if n < 100 then "0" ++ toString n
  else toString n

def _capitalize_word (w : String) : String :=
  match w.data with
  | [] => ""
  | c :: rest => String.mk (c.toUpper :: rest.map Char.toLower)

/-- Model of Python `str.title()` on the space-separated words the
fallback produces (the fallback is unreachable: every advisory type is in
the title table). -/
def _py_title (s : String) : String :=
  String.intercalate " " ((_py_split ' ' s).map _capitalize_word)

/-- The body of the per-(leg, zone) loop of `generate_advisories`
(lines 279-364): build one advisory for hotspot `hs` (already resolved
from `hs_by_id`) on the leg `wp → wp_next`. -/
def _mk_advisory {G : Type} (fromiso : String → Option PyDateTime)
    (wp wp_next : Waypoint) (hs_id : String) (hs : Hotspot G) (counter : Nat) :
    Except String Advisory :=
  match hs.name with
  | none => .error "KeyError: name"
  | some hsName =>
    let hs_type := hs.type.getD "high_traffic_density"
    let adv_type := (_TYPE_TO_ADVISORY.lookup hs_type).getD "traffic_density_warning"
    let default_sev := (_ADVISORY_DEFAULT_SEVERITY.lookup adv_type).getD "medium"
    let meta := hs.metadata.getD _empty_metadata
    let peak_hours := meta.peak_hours_utc
    let eta_str := wp.eta
    let r := _eta_in_peak_window fromiso eta_str peak_hours
    let in_peak := r.1
    let peak_window := r.2
    let severity :=
      if in_peak = true ∧
         (SEVERITY_RANK.lookup default_sev).getD 1 < (SEVERITY_RANK.lookup "high").getD 3
      then "high" else default_sev
    let eta_display :=
      match eta_str with
      | none => ""
      | some s =>
        if s = "" then ""
        else
          match fromiso (_py_replace 'Z' "+00:00" s) with
          | some d => d.display
          | none => s
    let type_title := (_ADVISORY_TITLE_TABLE.lookup adv_type).getD
      (_py_title (_py_replace '_' " " adv_type))
    let title := type_title ++ " — " ++ hsName
    let avg_truthy := match meta.avg_vessels_per_hour with
      | some n => n != 0
      | none => false
    let msg_parts :=
      ["Vessel route from WP" ++ toString wp.id ++ " (" ++ wp.name ++ ") to WP"
        ++ toString wp_next.id ++ " (" ++ wp_next.name ++ ") transits " ++ hsName ++ "."]
      ++ (if avg_truthy then
            ["Average traffic: " ++ toString (meta.avg_vessels_per_hour.getD 0)
              ++ " vessels/hour."]
          else [])
      ++ (if peak_hours = [] then []
          else ["Peak period: " ++ String.intercalate ", " peak_hours ++ " UTC."])
      ++ (if in_peak = true ∧ eta_display ≠ "" then
            ["Vessel ETA at WP" ++ toString wp.id ++ ": " ++ eta_display
              ++ " — coincides with peak traffic window ("
              ++ (match peak_window with | some w => w | none => "None") ++ ")."]
          else if eta_display ≠ "" then
            ["Vessel ETA at WP" ++ toString wp.id ++ ": " ++ eta_display ++ "."]
          else [])
      ++ (if meta.dominant_vessel_types = [] then []
          else ["Dominant vessel types: "
            ++ String.intercalate ", " meta.dominant_vessel_types ++ "."])
      ++ (if meta.notes = "" then [] else [meta.notes])
    let recommended_action := (_RECOMMENDED_ACTIONS.lookup adv_type).getD
      "Maintain enhanced watch and proceed with caution."
    .ok
      { id := "ADV-" ++ _ADV_DATE ++ "-" ++ _pad3 counter
        timestamp := _ADV_DATE ++ "T06:00:00Z"
        type := adv_type
        severity := severity
        relatedWaypoints := [wp.id, wp_next.id]
        relatedHotspots := [hs_id]
        title := title
        message := String.intercalate " " msg_parts
        structuredData :=
          { affectedLegStart := { waypointId := wp.id, name := wp.name }
            affectedLegEnd := { waypointId := wp_next.id, name := wp_next.name }
            trafficDensity :=
              match meta.avg_vessels_per_hour with
              | some n => if n ≠ 0 then some { value := n, unit := "vessels/hour" } else none
              | none => none
            vesselETA := eta_str
            peakWindow :=
              if peak_hours = [] then none
              else some (String.intercalate ", " peak_hours)
            inPeakWindow := in_peak
            recommendedAction := recommended_action }
        transmissionStatus := "ready"
        transmissionMethod := "Furuno Cloud (pending two-way integration)" }

/-- `hs_by_id = {hs["id"]: hs for hs in hotspots}` — raises `KeyError`
when any hotspot lacks its `id` key; a later duplicate id overwrites an
earlier one (`_dict_get` scans keeping the last binding). -/
def _hs_by_id {G : Type} : List (Hotspot G) → Except String (List (String × Hotspot G))
  | [] => .ok []
  | h :: t =>
    match h.id with
    | none => .error "KeyError: id"
    | some i =>
      match _hs_by_id t with
      | .error e => .error e
      | .ok rest => .ok ((i, h) :: rest)

/-- The inner `for hs_id in risk.get("intersectingHotspots", [])` loop:
unresolvable ids are skipped, the advisory counter advances once per
emitted advisory. -/
def _advisories_for_leg {G : Type} (fromiso : String → Option PyDateTime)
    (hsById : List (String × Hotspot G)) (wp wp_next : Waypoint) :
    List String → Nat → Except String (List Advisory × Nat)
  | [], c => .ok ([], c)
  | hid :: t, c =>
    match _dict_get hsById hid with
    | none => _advisories_for_leg fromiso hsById wp wp_next t c
    | some hs =>
      match _mk_advisory fromiso wp wp_next hid hs c with
      | .error e => .error e
      | .ok adv =>
        match _advisories_for_leg fromiso hsById wp wp_next t (c + 1) with
        | .error e => .error e
        | .ok (rest, cFinal) => .ok (adv :: rest, cFinal)

/-- The outer `for i, wp in enumerate(enriched_waypoints[:-1])` loop. -/
def _gen_go {G : Type} (fromiso : String → Option PyDateTime)
    (hsById : List (String × Hotspot G)) :
    List Waypoint → Nat → Except String (List Advisory × Nat)
  | [], c => .ok ([], c)
  | [_], c => .ok ([], c)
  | w :: w2 :: rest, c =>
    match w.leg.bind (fun l => l.riskAssessment) with
    | none => _gen_go fromiso hsById (w2 :: rest) c
    | some risk =>
      match _advisories_for_leg fromiso hsById w w2 risk.intersectingHotspots c with
      | .error e => .error e
      | .ok (advs, cNext) =>
        match _gen_go fromiso hsById (w2 :: rest) cNext with
        | .error e => .error e
        | .ok (advsRest, cFinal) => .ok (advs ++ advsRest, cFinal)

def _severity_order : List (String × Nat) := [("high", 0), ("medium", 1), ("low", 2)]

/-- The sort key `(severity_order.get(severity, 3), relatedWaypoints[0] or 0)`. -/
def _adv_key (a : Advisory) : Nat × Int :=
  ((_severity_order.lookup a.severity).getD 3,
   match a.relatedWaypoints with
   | [] => 0
   | x :: _ => x)

/-- Lexicographic comparison on `_adv_key` (the order `list.sort` uses). -/
def _key_le (a b : Advisory) : Prop :=
  (_adv_key a).1 < (_adv_key b).1 ∨
    ((_adv_key a).1 = (_adv_key b).1 ∧ (_adv_key a).2 ≤ (_adv_key b).2)

instance (a b : Advisory) : Decidable (_key_le a b) := by
  unfold _key_le; infer_instance

instance : IsTotal Advisory _key_le :=
  ⟨fun a b => by unfold _key_le; omega⟩

instance : IsTrans Advisory _key_le :=
  ⟨fun a b c hab hbc => by unfold _key_le at *; omega⟩

/-- `generate_advisories(enriched_waypoints, route_info, hotspots)`.
`route_info` is accepted and never read, exactly as in the source.  The
final `advisories.sort(key=...)` — Timsort, a stable sort — is modelled
by the stable `List.insertionSort` (all stable sorts agree, the
comparison being a total preorder). -/
def generate_advisories {G R : Type} (fromiso : String → Option PyDateTime)
    (enriched_waypoints : List Waypoint) (route_info : R)
    (hotspots : List (Hotspot G)) : Except String (List Advisory) :=
  match _hs_by_id hotspots with
  | .error e => .error e
  | .ok hsById =>
    match _gen_go fromiso hsById enriched_waypoints 1 with
    | .error e => .error e
    | .ok (advisories, _) => .ok (advisories.insertionSort _key_le)

/-! ## Risk summary (`hotspot_analyzer.py` 378-408) -/

structure RiskyLeg where
  legIndex : Nat
  fromWaypointId : Int
  fromWaypointName : String
  toWaypointId : Int
  toWaypointName : String
  riskLevel : String
  summary : String
deriving DecidableEq, Repr

structure RiskSummary where
  overallRisk : String
  hotspotCount : Nat
  riskyLegs : List RiskyLeg
deriving DecidableEq, Repr

def _rank_str (l : String) : Int := (SEVERITY_RANK.lookup l).getD 0

/-- Python-set insertion: `hotspot_ids.add(hs_id)`. -/
def _set_insert (s : List String) (x : String) : List String :=
  if x ∈ s then s else s ++ [x]

def _sum_go : Nat → String → List String → List RiskyLeg → List Waypoint → RiskSummary
  | _, overall, ids, legs, [] => ⟨overall, ids.length, legs⟩
  | _, overall, ids, legs, [_] => ⟨overall, ids.length, legs⟩
  | i, overall, ids, legs, w :: w2 :: rest =>
    match w.leg.bind (fun l => l.riskAssessment) with
    | none => _sum_go (i + 1) overall ids legs (w2 :: rest)
    | some risk =>
      let level := risk.level
      let overallNext := if _rank_str overall < _rank_str level then level else overall
      let idsNext := risk.intersectingHotspots.foldl _set_insert ids
      _sum_go (i + 1) overallNext idsNext
        (legs ++ [{ legIndex := i, fromWaypointId := w.id, fromWaypointName := w.name
                    toWaypointId := w2.id, toWaypointName := w2.name
                    riskLevel := level, summary := risk.summary }])
        (w2 :: rest)

/-- `compute_risk_summary(enriched_waypoints)`. -/
def compute_risk_summary (enriched_waypoints : List Waypoint) : RiskSummary :=
  _sum_go 0 "low" [] [] enriched_waypoints

/-! ## RTZ parser (`rtz_parser.py`)

`xml.etree.ElementTree.fromstring` is the stdlib XML parser: it fails
exactly on input that is not well-formed XML, and a well-formed document
is exactly an element tree.  The embedding therefore works on the tree;
`parse_rtz` here is the part of the source that runs after `fromstring`
succeeded.  Distances are computed by the floating-point `_haversine_nm`;
the embedded parser takes the distance function as a parameter `hav` and
every distance claim is proved for all such functions. -/

inductive XML where
  | elem (tag : String) (attribs : List (String × String)) (children : List XML)

def XML.tag : XML → String
  | .elem t _ _ => t

def XML.attribs : XML → List (String × String)
  | .elem _ a _ => a

def XML.children : XML → List XML
  | .elem _ _ c => c

/-- `Element.get(key)` (attribute lookup). -/
def XML.get (x : XML) (k : String) : Option String :=
  x.attribs.lookup k

def RTZ_NAMESPACES : List (String × String) :=
  [("1.1", "http://www.cirm.org/RTZ/1/1"),
   ("1.2", "http://www.cirm.org/RTZ/1/2")]

/-- `_detect_namespace(root)`. -/
def _detect_namespace (root : XML) : String :=
  let version := (root.get "version").getD "1.1"
  let ns := (RTZ_NAMESPACES.lookup version).getD "http://www.cirm.org/RTZ/1/1"
  if _starts_with (Char.ofNat 123) root.tag then
    String.mk ((((_py_split (Char.ofNat 125) root.tag).headD "").data).dropWhile
      (fun c => c = Char.ofNat 123))
  else ns

/-- `_find(parent, tag, ns)`: namespaced child first, un-namespaced fallback. -/
def _find (parent : XML) (tag : String) (ns : String) : Option XML :=
  match parent.children.find? (fun c => c.tag == "\x7b" ++ ns ++ "\x7d" ++ tag) with
  | some el => some el
  | none => parent.children.find? (fun c => c.tag == tag)

/-- `_findall(parent, tag, ns)`. -/
def _findall (parent : XML) (tag : String) (ns : String) : List XML :=
  let els := parent.children.filter (fun c => c.tag == "\x7b" ++ ns ++ "\x7d" ++ tag)
  if els.isEmpty then parent.children.filter (fun c => c.tag == tag) else els

/-- `float(el.get(key, 0))`: a missing attribute defaults to `0`, a
present attribute that `float()` rejects raises `ValueError`. -/
def _float_attr (el : XML) (k : String) : Except String ℚ :=
  match el.get k with
  | none => .ok 0
  | some s =>
    match pyFloatOfString s with
    | some q => .ok q
    | none => .error ("ValueError: could not convert string to float: " ++ s)

/-- `int(el.get(key, 0))`. -/
def _int_attr (el : XML) (k : String) : Except String Int :=
  match el.get k with
  | none => .ok 0
  | some s =>
    match pyIntOfString s with
    | some n => .ok n
    | none => .error ("ValueError: invalid literal for int: " ++ s)

/-- `_parse_leg(leg_el)` of the parser: `None` stays `None`, otherwise a
leg dict with `float`-converted attributes. -/
def _parse_leg (legEl : Option XML) : Except String (Option Leg) :=
  match legEl with
  | none => .ok none
  | some el =>
    match _float_attr el "speedMax" with
    | .error e => .error e
    | .ok sm =>
      match _float_attr el "portsideXTD" with
      | .error e => .error e
      | .ok po =>
        match _float_attr el "starboardXTD" with
        | .error e => .error e
        | .ok st =>
          .ok (some { speedMax := some sm, portsideXTD := some po, starboardXTD := some st
                      geometryType := some ((el.get "geometryType").getD "Loxodrome")
                      riskAssessment := none })

/-- The per-`<waypoint>` loop: elements without a `<position>` child are
skipped before any conversion runs. -/
def _parse_waypoints (ns : String) (default_leg : Option Leg) :
    List XML → Except String (List Waypoint)
  | [] => .ok []
  | wpEl :: rest =>
    match _find wpEl "position" ns with
    | none => _parse_waypoints ns default_leg rest
    | some posEl =>
      match _float_attr posEl "lat" with
      | .error e => .error e
      | .ok lat =>
        match _float_attr posEl "lon" with
        | .error e => .error e
        | .ok lon =>
          match _parse_leg (_find wpEl "leg" ns) with
          | .error e => .error e
          | .ok leg =>
            match _int_attr wpEl "id" with
            | .error e => .error e
            | .ok wid =>
              match _int_attr wpEl "revision" with
              | .error e => .error e
              | .ok rev =>
                match _parse_waypoints ns default_leg rest with
                | .error e => .error e
                | .ok tail =>
                  .ok ({ id := wid, revision := rev
                         name := (wpEl.get "name").getD ("WP_" ++ ((wpEl.get "id").getD "?"))
                         lat := lat, lon := lon
                         leg := match leg with | some l => some l | none => default_leg
                         eta := none, legDistanceNm := 0 } :: tail)

structure ScheduleElement where
  waypointId : Int
  eta : String
deriving DecidableEq, Repr

structure Schedule where
  id : String
  name : String
  elements : List ScheduleElement
deriving DecidableEq, Repr

def _parse_schedule_elements (ns : String) : List XML → Except String (List ScheduleElement)
  | [] => .ok []
  | seEl :: rest =>
    match _int_attr seEl "waypointId" with
    | .error e => .error e
    | .ok wid =>
      match _parse_schedule_elements ns rest with
      | .error e => .error e
      | .ok tail => .ok ({ waypointId := wid, eta := (seEl.get "eta").getD "" } :: tail)

def _parse_schedules (ns : String) : List XML → Except String (List Schedule)
  | [] => .ok []
  | schedEl :: rest =>
    match (match _find schedEl "calculated" ns with
           | none => (.ok [] : Except String (List ScheduleElement))
           | some calcEl =>
             _parse_schedule_elements ns (_findall calcEl "scheduleElement" ns)) with
    | .error e => .error e
    | .ok elems =>
      match _parse_schedules ns rest with
      | .error e => .error e
      | .ok tail =>
        .ok ({ id := (schedEl.get "id").getD "", name := (schedEl.get "name").getD ""
               elements := elems } :: tail)

structure RouteInfo where
  routeName : String
  routeAuthor : String
  routeStatus : String
  vesselName : String
  vesselMMSI : String
  vesselIMO : String
  vesselVoyage : String
  validityPeriodStart : String
  validityPeriodStop : String
deriving DecidableEq, Repr

structure RouteDocument where
  rtzVersion : String
  routeInfo : Option RouteInfo
  waypoints : List Waypoint
  schedules : List Schedule
  totalDistanceNm : ℚ
  waypointCount : Nat
deriving DecidableEq, Repr

/-- `_haversine_nm`, transcribed over `ℝ` for the record (the running
code computes it in floating point; everything proved about distances is
proved for an arbitrary `ℚ`-valued distance function instead). -/
noncomputable def _haversine_nm (lat1 lon1 lat2 lon2 : ℝ) : ℝ :=
  let R_NM : ℝ := 3440.065
  let rad : ℝ → ℝ := fun d => d * Real.pi / 180
  let atan2 : ℝ → ℝ → ℝ := fun y x =>
    if x = 0 then Real.pi / 2 else Real.arctan (y / x)
  let dlat := rad (lat2 - lat1)
  let dlon := rad (lon2 - lon1)
  let a := Real.sin (dlat / 2) ^ 2 +
    Real.cos (rad lat1) * Real.cos (rad lat2) * Real.sin (dlon / 2) ^ 2
  R_NM * (2 * atan2 (Real.sqrt a) (Real.sqrt (1 - a)))

/-- The `total_distance_nm` accumulation loop: full, unrounded leg
distances summed over consecutive waypoint pairs. -/
def _total_unrounded (hav : ℚ → ℚ → ℚ → ℚ → ℚ) : List Waypoint → ℚ
  | [] => 0
  | [_] => 0
  | a :: b :: rest => hav a.lat a.lon b.lat b.lon + _total_unrounded hav (b :: rest)

/-- The leg-distance stamping loop for waypoints after the first. -/
def _stamp_go (hav : ℚ → ℚ → ℚ → ℚ → ℚ) (prev : Waypoint) :
    List Waypoint → List Waypoint
  | [] => []
  | b :: rest =>
    { b with legDistanceNm := pyRound1 (hav prev.lat prev.lon b.lat b.lon) }
      :: _stamp_go hav b rest

/-- `legDistanceNm` stamping: `0.0` for the first waypoint, the rounded
haversine distance from the predecessor for each later one. -/
def _stamp_leg_distances (hav : ℚ → ℚ → ℚ → ℚ → ℚ) :
    List Waypoint → List Waypoint
  | [] => []
  | a :: rest => { a with legDistanceNm := 0 } :: _stamp_go hav a rest

/-- `parse_rtz(xml_content)` after `ET.fromstring` succeeded, over the
element tree `root`; `hav` is the (floating-point) `_haversine_nm`. -/
def _parse_waypoints_section (ns : String) (root : XML) :
    Except String (List Waypoint) :=
  match _find root "waypoints" ns with
  | none => .ok []
  | some wEl =>
    match _parse_leg ((_find wEl "defaultWaypoint" ns).bind fun d => _find d "leg" ns) with
    | .error e => .error e
    | .ok default_leg => _parse_waypoints ns default_leg (_findall wEl "waypoint" ns)

def _parse_schedules_section (ns : String) (root : XML) :
    Except String (List Schedule) :=
  match _find root "schedules" ns with
  | none => .ok []
  | some sEl => _parse_schedules ns (_findall sEl "schedule" ns)

def _route_info_section (ns : String) (root : XML) : Option RouteInfo :=
  (_find root "routeInfo" ns).map fun el =>
    { routeName := (el.get "routeName").getD ""
      routeAuthor := (el.get "routeAuthor").getD ""
      routeStatus := (el.get "routeStatus").getD ""
      vesselName := (el.get "vesselName").getD ""
      vesselMMSI := (el.get "vesselMMSI").getD ""
      vesselIMO := (el.get "vesselIMO").getD ""
      vesselVoyage := (el.get "vesselVoyage").getD ""
      validityPeriodStart := (el.get "validityPeriodStart").getD ""
      validityPeriodStop := (el.get "validityPeriodStop").getD "" }

def parse_rtz (hav : ℚ → ℚ → ℚ → ℚ → ℚ) (root : XML) :
    Except String RouteDocument :=
  match _parse_waypoints_section (_detect_namespace root) root with
  | .error e => .error e
  | .ok waypoints0 =>
    match _parse_schedules_section (_detect_namespace root) root with
    | .error e => .error e
    | .ok schedules =>
      let eta_lookup := (schedules.map fun s =>
        s.elements.map fun e => (e.waypointId, e.eta)).flatten
      let waypoints1 := waypoints0.map fun w => { w with eta := _dict_get eta_lookup w.id }
      let total_distance_nm := _total_unrounded hav waypoints1
      let waypoints := _stamp_leg_distances hav waypoints1
      .ok { rtzVersion := (root.get "version").getD "1.1"
            routeInfo := _route_info_section (_detect_namespace root) root
            waypoints := waypoints, schedules := schedules
            totalDistanceNm := pyRound1 total_distance_nm
            waypointCount := waypoints.length }

/-! ## Statement vocabulary -/

/-- Every numeric attribute that is *present* in the tree parses as a
number (missing ones default and can never fail).  This is the totality
precondition of `parse_rtz`: well-formedness of the XML alone does not
prevent a `ValueError` from `float()`/`int()`. -/
def _float_attr_ok (el : XML) (k : String) : Bool :=
  match el.get k with
  | none => true
  | some s => (pyFloatOfString s).isSome

def _int_attr_ok (el : XML) (k : String) : Bool :=
  match el.get k with
  | none => true
  | some s => (pyIntOfString s).isSome

def _leg_ok (legEl : Option XML) : Bool :=
  match legEl with
  | none => true
  | some el =>
    _float_attr_ok el "speedMax" && _float_attr_ok el "portsideXTD" &&
      _float_attr_ok el "starboardXTD"

def _wp_ok (ns : String) (wpEl : XML) : Bool :=
  match _find wpEl "position" ns with
  | none => true
  | some posEl =>
    _float_attr_ok posEl "lat" && _float_attr_ok posEl "lon" &&
      _leg_ok (_find wpEl "leg" ns) && _int_attr_ok wpEl "id" &&
      _int_attr_ok wpEl "revision"

def _sched_ok (ns : String) (schedEl : XML) : Bool :=
  match _find schedEl "calculated" ns with
  | none => true
  | some calcEl =>
    (_findall calcEl "scheduleElement" ns).all fun seEl => _int_attr_ok seEl "waypointId"

def wellNumbered (root : XML) : Bool :=
  let ns := _detect_namespace root
  (match _find root "waypoints" ns with
   | none => true
   | some wEl =>
     _leg_ok ((_find wEl "defaultWaypoint" ns).bind fun d => _find d "leg" ns) &&
       (_findall wEl "waypoint" ns).all (_wp_ok ns)) &&
  (match _find root "schedules" ns with
   | none => true
   | some sEl => (_findall sEl "schedule" ns).all (_sched_ok ns))

/-- The risk assessments carried by the legs of an enriched waypoint
list, in leg traversal order (the last waypoint carries no outgoing
leg). -/
def _leg_risks : List Waypoint → List RiskAssessment
  | [] => []
  | [_] => []
  | w :: w2 :: rest =>
    match w.leg.bind (fun l => l.riskAssessment) with
    | none => _leg_risks (w2 :: rest)
    | some r => r :: _leg_risks (w2 :: rest)

/-- The hotspot that the dict `{hs["id"]: hs}` maps `hid` to: the last
catalogue entry carrying that id. -/
def _zone_for {G : Type} (hotspots : List (Hotspot G)) (hid : String) :
    Option (Hotspot G) :=
  hotspots.foldl (fun acc hs => if hs.id == some hid then some hs else acc) none

/-! ## C10: windows wrapping midnight never match -/

lemma _first_matching_window_drop_wrapped (w : String) (s e : Int)
    (hparse : _parse_peak_hour_window w = some (s, e)) (hwrap : e < s) :
    ∀ (hour : Nat) (ws1 ws2 : List String),
      _first_matching_window hour (ws1 ++ w :: ws2) =
        _first_matching_window hour (ws1 ++ ws2) := by
  intro hour ws1 ws2
  induction ws1 with
  | nil =>
    simp only [List.nil_append, _first_matching_window, hparse]
    rw [if_neg (by omega)]
  | cons w1 ws1 ih =>
    simp only [List.cons_append, _first_matching_window]
    cases hp : _parse_peak_hour_window w1 with
    | none => exact ih
    | some p =>
      by_cases hc : p.1 ≤ (hour : Int) ∧ (hour : Int) < p.2
      · simp [hc]
      · simp [hc]; exact ih

/-- **C10**: a peak-hour window whose start hour is strictly greater than
its end hour can never contain any hour-of-day, and removing such a
window from a zone's peak-hour list never changes the result of
`_eta_in_peak_window` — hence it can never set `inPeakWindow` or cause an
escalation. -/
theorem c10_wrapped_window_never_matches (w : String) (s e : Int)
    (hparse : _parse_peak_hour_window w = some (s, e)) (hwrap : e < s) :
    (∀ h : Nat, ¬(s ≤ (h : Int) ∧ (h : Int) < e)) ∧
    (∀ (fromiso : String → Option PyDateTime) (eta : Option String)
       (ws1 ws2 : List String),
      _eta_in_peak_window fromiso eta (ws1 ++ w :: ws2) =
        _eta_in_peak_window fromiso eta (ws1 ++ ws2)) := by
  constructor
  · intro h hc; omega
  · intro fromiso eta ws1 ws2
    unfold _eta_in_peak_window
    by_cases hfalsy : eta = none ∨ eta = some ""
    · rw [if_pos (by tauto), if_pos (by tauto)]
    · have hne : ¬(ws1 ++ w :: ws2 = []) := by simp
      by_cases hemp : ws1 ++ ws2 = []
      · rw [if_neg (by tauto), if_pos (by tauto)]
        cases hfi : fromiso (_py_replace 'Z' "+00:00" (eta.getD "")) with
        | none => rfl
        | some d =>
          simp only [_first_matching_window_drop_wrapped w s e hparse hwrap, hemp,
            _first_matching_window]
      · rw [if_neg (by tauto), if_neg (by tauto)]
        cases hfi : fromiso (_py_replace 'Z' "+00:00" (eta.getD "")) with
        | none => rfl
        | some d =>
          simp only [_first_matching_window_drop_wrapped w s e hparse hwrap]

theorem c10_wrapped_window_never_matches_witness :
    _parse_peak_hour_window "22:00-03:00" = some (22, 3) ∧ (3 : Int) < 22 ∧
    ¬((22 : Int) ≤ ((23 : Nat) : Int) ∧ ((23 : Nat) : Int) < 3) ∧
    _eta_in_peak_window fromisoformat_model (some "2026-04-27T23:30:00Z")
        ([] ++ "22:00-03:00" :: []) =
      _eta_in_peak_window fromisoformat_model (some "2026-04-27T23:30:00Z") ([] ++ []) := by
  have h1 : _parse_peak_hour_window "22:00-03:00" = some (22, 3) := by decide
  have h2 : (3 : Int) < 22 := by decide
  exact ⟨h1, h2,
    (c10_wrapped_window_never_matches "22:00-03:00" 22 3 h1 h2).1 23,
    (c10_wrapped_window_never_matches "22:00-03:00" 22 3 h1 h2).2
      fromisoformat_model (some "2026-04-27T23:30:00Z") [] []⟩

/-! ## C5: advisory ordering -/

/-- Inversion of a successful `generate_advisories` call into its stages. -/
lemma generate_advisories_inv {G R : Type} (fromiso : String → Option PyDateTime)
    (wps : List Waypoint) (ri : R) (hotspots : List (Hotspot G)) (advs : List Advisory)
    (h : generate_advisories fromiso wps ri hotspots = .ok advs) :
    ∃ m l c, _hs_by_id hotspots = .ok m ∧ _gen_go fromiso m wps 1 = .ok (l, c) ∧
      advs = l.insertionSort _key_le := by
  unfold generate_advisories at h
  cases hm : _hs_by_id (G := G) hotspots with
  | error e => simp [hm] at h
  | ok m =>
    simp only [hm] at h
    cases hg : _gen_go fromiso m wps 1 with
    | error e => simp [hg] at h
    | ok p =>
      obtain ⟨l, c⟩ := p
      simp only [hg, Except.ok.injEq] at h
      exact ⟨m, l, c, rfl, hg, h.symm⟩

/-- **C5**: the advisory list returned by `generate_advisories` is sorted
by the key (severity rank with high=0/medium=1/low=2/other=3, then first
related waypoint id), and re-sorting the returned list with the same
(stable) sort is the identity. -/
theorem c5_ordering_law {G R : Type} (fromiso : String → Option PyDateTime)
    (enriched_waypoints : List Waypoint) (route_info : R)
    (hotspots : List (Hotspot G)) (advs : List Advisory)
    (h : generate_advisories fromiso enriched_waypoints route_info hotspots = .ok advs) :
    advs.Pairwise _key_le ∧ advs.insertionSort _key_le = advs := by
  obtain ⟨m, l, c, hm, hg, rfl⟩ :=
    generate_advisories_inv fromiso enriched_waypoints route_info hotspots advs h
  have hsorted : (l.insertionSort _key_le).Pairwise _key_le :=
    List.sorted_insertionSort _key_le l
  exact ⟨hsorted, List.Sorted.insertionSort_eq hsorted⟩

def _ex_hotspot : Hotspot Unit :=
  { id := some "HS-1", name := some "Zone X", type := some "congestion"
    severity := some "medium", geometry := some ()
    metadata := some
      { avg_vessels_per_hour := some 120, peak_hours_utc := ["06:00-10:00"]
        dominant_vessel_types := ["cargo"], notes := "Busy." } }

def _ex_risk : RiskAssessment :=
  { level := "medium", intersectingHotspots := ["HS-1"]
    summary := "Zone X: avg 120 vessels/hour." }

def _ex_w0 : Waypoint :=
  { id := 1, revision := 0, name := "A", lat := 0, lon := 0
    leg := some { _empty_leg with riskAssessment := some _ex_risk }
    eta := some "2026-04-27T07:30:00Z", legDistanceNm := 0 }

def _ex_w1 : Waypoint :=
  { id := 2, revision := 0, name := "B", lat := 1, lon := 1
    leg := none, eta := none, legDistanceNm := 0 }

def _ex_advs5 : List Advisory :=
  (generate_advisories fromisoformat_model [_ex_w0, _ex_w1] ()
    [_ex_hotspot]).toOption.getD []

theorem c5_ordering_law_witness :
    generate_advisories fromisoformat_model [_ex_w0, _ex_w1] () [_ex_hotspot] =
      .ok _ex_advs5 ∧
    (_ex_advs5.Pairwise _key_le ∧ _ex_advs5.insertionSort _key_le = _ex_advs5) := by
  have h : generate_advisories fromisoformat_model [_ex_w0, _ex_w1] () [_ex_hotspot] =
      .ok _ex_advs5 := rfl
  exact ⟨h, c5_ordering_law fromisoformat_model [_ex_w0, _ex_w1] () [_ex_hotspot] _ex_advs5 h⟩

/-! ## Dict-lookup bookkeeping -/

lemma _dict_get_foldl {α β : Type} [BEq α] (l : List (α × β)) (k : α) :
    ∀ acc : Option β,
      l.foldl (fun acc p => if p.1 == k then some p.2 else acc) acc =
        (_dict_get l k).or acc := by
  induction l with
  | nil => intro acc; simp [_dict_get, Option.or]
  | cons x t ih =>
    intro acc
    have hcons : _dict_get (x :: t) k =
        (_dict_get t k).or (if x.1 == k then some x.2 else none) := by
      unfold _dict_get
      rw [List.foldl_cons]
      exact ih _
    rw [List.foldl_cons, ih _, hcons]
    cases hd : _dict_get t k <;> cases hif : x.1 == k <;> simp [Option.or, hif]

lemma _zone_for_foldl {G : Type} (l : List (Hotspot G)) (hid : String) :
    ∀ acc : Option (Hotspot G),
      l.foldl (fun acc hs => if hs.id == some hid then some hs else acc) acc =
        (_zone_for l hid).or acc := by
  induction l with
  | nil => intro acc; simp [_zone_for, Option.or]
  | cons x t ih =>
    intro acc
    have hcons : _zone_for (x :: t) hid =
        (_zone_for t hid).or (if x.id == some hid then some x else none) := by
      unfold _zone_for
      rw [List.foldl_cons]
      exact ih _
    rw [List.foldl_cons, ih _, hcons]
    cases hd : _zone_for t hid <;> cases hif : x.id == some hid <;> simp [Option.or, hif]

/-- A successful `hs_by_id` dict gives exactly the last-binding-wins
lookup over the catalogue. -/
lemma _hs_by_id_dict_get {G : Type} :
    ∀ (hotspots : List (Hotspot G)) (m : List (String × Hotspot G)),
      _hs_by_id hotspots = .ok m →
      ∀ hid, _dict_get m hid = _zone_for hotspots hid := by
  intro hotspots
  induction hotspots with
  | nil =>
    intro m h hid
    simp only [_hs_by_id, Except.ok.injEq] at h
    simp [← h, _dict_get, _zone_for]
  | cons hs t ih =>
    intro m h hid
    unfold _hs_by_id at h
    cases hid0 : hs.id with
    | none => rw [hid0] at h; exact absurd h (by simp)
    | some i =>
      rw [hid0] at h
      cases hrest : _hs_by_id t with
      | error e => rw [hrest] at h; exact absurd h (by simp)
      | ok rest =>
        rw [hrest] at h
        simp only [Except.ok.injEq] at h
        subst h
        have hzf : _zone_for (hs :: t) hid =
            (_zone_for t hid).or (if hs.id == some hid then some hs else none) :=
          _zone_for_foldl t hid _
        have hdg : _dict_get ((i, hs) :: rest) hid =
            (_dict_get rest hid).or (if i == hid then some hs else none) :=
          _dict_get_foldl rest hid _
        rw [hdg, hzf, ih rest hrest hid, hid0]
        cases hif : i == hid <;> simp [hif]

/-! ## Peak-window flag characterisation -/

lemma _first_matching_window_isSome_iff (hour : Nat) (ws : List String) :
    (_first_matching_window hour ws).isSome = true ↔
      ∃ w ∈ ws, ∃ p, _parse_peak_hour_window w = some p ∧
        p.1 ≤ (hour : Int) ∧ (hour : Int) < p.2 := by
  induction ws with
  | nil => simp [_first_matching_window]
  | cons w1 t ih =>
    simp only [_first_matching_window]
    cases hp : _parse_peak_hour_window w1 with
    | none =>
      rw [ih]
      constructor
      · rintro ⟨w, hw, hrest⟩; exact ⟨w, by simp [hw], hrest⟩
      · rintro ⟨w, hw, p, hpw, hrange⟩
        rcases List.mem_cons.1 hw with rfl | hw
        · rw [hp] at hpw; cases hpw
        · exact ⟨w, hw, p, hpw, hrange⟩
    | some p =>
      by_cases hc : p.1 ≤ (hour : Int) ∧ (hour : Int) < p.2
      · simp only [if_pos hc, Option.isSome_some, true_iff]
        exact ⟨w1, by simp, p, hp, hc⟩
      · simp only [if_neg hc]
        rw [ih]
        constructor
        · rintro ⟨w, hw, hrest⟩; exact ⟨w, by simp [hw], hrest⟩
        · rintro ⟨w, hw, q, hqw, hrange⟩
          rcases List.mem_cons.1 hw with rfl | hw
          · rw [hp] at hqw; cases hqw; exact absurd hrange hc
          · exact ⟨w, hw, q, hqw, hrange⟩

/-- The `is_peak` component of `_eta_in_peak_window` is true precisely
when the ETA is present, non-empty, parses, and its hour lies in some
parsable window of the list. -/
lemma _eta_in_peak_window_fst_iff (fromiso : String → Option PyDateTime)
    (eta : Option String) (ws : List String) :
    (_eta_in_peak_window fromiso eta ws).1 = true ↔
      ∃ s, eta = some s ∧ s ≠ "" ∧
        ∃ d, fromiso (_py_replace 'Z' "+00:00" s) = some d ∧
          ∃ w ∈ ws, ∃ p, _parse_peak_hour_window w = some p ∧
            p.1 ≤ (d.hour : Int) ∧ (d.hour : Int) < p.2 := by
  unfold _eta_in_peak_window
  by_cases hfalsy : eta = none ∨ eta = some "" ∨ ws = []
  · rw [if_pos hfalsy]
    refine iff_of_false (by simp) ?_
    rintro ⟨s, rfl, hs, d, hd, w, hw, hrest⟩
    rcases hfalsy with h | h | h
    · cases h
    · exact hs (Option.some.inj h)
    · subst h; cases hw
  · rw [if_neg hfalsy]
    push_neg at hfalsy
    obtain ⟨hn, hne, hnil⟩ := hfalsy
    obtain ⟨s, rfl⟩ := Option.ne_none_iff_exists'.1 hn
    have hs : s ≠ "" := fun h => hne (by rw [h])
    cases hd : fromiso (_py_replace 'Z' "+00:00" ((some s).getD "")) with
    | none =>
      simp only [Option.getD_some] at hd
      refine iff_of_false (by simp) ?_
      rintro ⟨s1, hs1, _, d, hd1, _⟩
      injection hs1 with hs1; subst hs1
      rw [hd] at hd1; cases hd1
    | some d =>
      simp only [Option.getD_some] at hd
      show (match _first_matching_window d.hour ws with
            | some w => (true, some w)
            | none => (false, none)).1 = true ↔ _
      cases hfm : _first_matching_window d.hour ws with
      | none =>
        refine iff_of_false (by simp) ?_
        rintro ⟨s1, hs1, _, d1, hd1, w, hw, p, hpw, hrange⟩
        injection hs1 with hs1; subst hs1
        rw [hd] at hd1; injection hd1 with hd1; subst hd1
        have hsome := (_first_matching_window_isSome_iff d.hour ws).2 ⟨w, hw, p, hpw, hrange⟩
        rw [hfm] at hsome; cases hsome
      | some w =>
        refine iff_of_true (by simp) ?_
        have hmem := (_first_matching_window_isSome_iff d.hour ws).1 (by rw [hfm]; rfl)
        exact ⟨s, rfl, hs, d, hd, hmem⟩

/-- When the flag is false no matching window is reported. -/
lemma _eta_in_peak_window_snd_none (fromiso : String → Option PyDateTime)
    (eta : Option String) (ws : List String)
    (h : (_eta_in_peak_window fromiso eta ws).1 = false) :
    (_eta_in_peak_window fromiso eta ws).2 = none := by
  by_cases hfalsy : eta = none ∨ eta = some "" ∨ ws = []
  · unfold _eta_in_peak_window
    rw [if_pos hfalsy]
  · unfold _eta_in_peak_window at h ⊢
    rw [if_neg hfalsy] at h ⊢
    cases hd : fromiso (_py_replace 'Z' "+00:00" (eta.getD "")) with
    | none => rfl
    | some d =>
      simp only [hd] at h
      show (match _first_matching_window d.hour ws with
            | some w => (true, some w)
            | none => (false, none)).2 = none
      cases hfm : _first_matching_window d.hour ws with
      | none => rfl
      | some w => simp [hfm] at h

/-! ## Per-advisory facts -/

/-- Every field of a generated advisory that the claims inspect, read off
the construction in `generate_advisories` (lines 279-364). -/
lemma _mk_advisory_fields {G : Type} (fromiso : String → Option PyDateTime)
    (wp wp_next : Waypoint) (hid : String) (hs : Hotspot G) (k : Nat) (a : Advisory)
    (h : _mk_advisory fromiso wp wp_next hid hs k = .ok a) :
    a.relatedHotspots = [hid] ∧
    a.relatedWaypoints = [wp.id, wp_next.id] ∧
    a.structuredData.vesselETA = wp.eta ∧
    a.structuredData.affectedLegStart = ⟨wp.id, wp.name⟩ ∧
    a.structuredData.affectedLegEnd = ⟨wp_next.id, wp_next.name⟩ ∧
    a.type = (_TYPE_TO_ADVISORY.lookup (hs.type.getD "high_traffic_density")).getD
      "traffic_density_warning" ∧
    a.structuredData.inPeakWindow =
      (_eta_in_peak_window fromiso wp.eta
        (hs.metadata.getD _empty_metadata).peak_hours_utc).1 ∧
    a.severity = (if a.structuredData.inPeakWindow = true ∧
        (SEVERITY_RANK.lookup
          ((_ADVISORY_DEFAULT_SEVERITY.lookup a.type).getD "medium")).getD 1 <
          (SEVERITY_RANK.lookup "high").getD 3
      then "high"
      else (_ADVISORY_DEFAULT_SEVERITY.lookup a.type).getD "medium") := by
  unfold _mk_advisory at h
  cases hname : hs.name with
  | none => rw [hname] at h; cases h
  | some nm =>
    rw [hname] at h
    simp only [Except.ok.injEq] at h
    subst h
    exact ⟨rfl, rfl, rfl, rfl, rfl, rfl, rfl, rfl⟩

/-- The advisory type and its tabled default severity always land in the
four-row table (unknown zone types collapse to
`traffic_density_warning`). -/
lemma _adv_type_and_default (t : String) :
    ((_TYPE_TO_ADVISORY.lookup t).getD "traffic_density_warning",
     (_ADVISORY_DEFAULT_SEVERITY.lookup
       ((_TYPE_TO_ADVISORY.lookup t).getD "traffic_density_warning")).getD "medium")
      ∈ [("traffic_density_warning", "high"), ("crossing_traffic_alert", "high"),
         ("congestion_advisory", "medium"), ("fishing_activity_notice", "low")] := by
  by_cases h1 : t = "high_traffic_density"
  · subst h1; decide
  by_cases h2 : t = "crossing_traffic"
  · subst h2; decide
  by_cases h3 : t = "congestion"
  · subst h3; decide
  by_cases h4 : t = "fishing_activity"
  · subst h4; decide
  have hb1 : (t == "high_traffic_density") = false := beq_eq_false_iff_ne.2 h1
  have hb2 : (t == "crossing_traffic") = false := beq_eq_false_iff_ne.2 h2
  have hb3 : (t == "congestion") = false := beq_eq_false_iff_ne.2 h3
  have hb4 : (t == "fishing_activity") = false := beq_eq_false_iff_ne.2 h4
  have hl : _TYPE_TO_ADVISORY.lookup t = none := by
    simp [_TYPE_TO_ADVISORY, List.lookup, hb1, hb2, hb3, hb4]
  rw [hl]; decide

/-- Advisories emitted for one leg all come from `_mk_advisory` on a
resolved zone. -/
lemma _advisories_for_leg_mem {G : Type} (fromiso : String → Option PyDateTime)
    (m : List (String × Hotspot G)) (wp wp_next : Waypoint) :
    ∀ (ids : List String) (c : Nat) (advs : List Advisory) (cf : Nat),
      _advisories_for_leg fromiso m wp wp_next ids c = .ok (advs, cf) →
      ∀ a ∈ advs, ∃ hid hs k, _dict_get m hid = some hs ∧
        _mk_advisory fromiso wp wp_next hid hs k = .ok a := by
  intro ids
  induction ids with
  | nil =>
    intro c advs cf h a ha
    simp only [_advisories_for_leg, Except.ok.injEq, Prod.mk.injEq] at h
    rw [← h.1] at ha
    cases ha
  | cons hid t ih =>
    intro c advs cf h a ha
    unfold _advisories_for_leg at h
    cases hz : _dict_get m hid with
    | none => rw [hz] at h; exact ih c advs cf h a ha
    | some hs =>
      simp only [hz] at h
      cases hmk : _mk_advisory fromiso wp wp_next hid hs c with
      | error e => simp [hmk] at h
      | ok adv =>
        simp only [hmk] at h
        cases hrec : _advisories_for_leg fromiso m wp wp_next t (c + 1) with
        | error e => simp [hrec] at h
        | ok p =>
          obtain ⟨rest, cF⟩ := p
          simp only [hrec, Except.ok.injEq, Prod.mk.injEq] at h
          rw [← h.1] at ha
          rcases List.mem_cons.1 ha with rfl | ha2
          · exact ⟨hid, hs, c, hz, hmk⟩
          · exact ih (c + 1) rest cF hrec a ha2

/-- Every advisory of a successful `_gen_go` run arises from a pair of
consecutive waypoints and a zone resolved in the id dict. -/
lemma _gen_go_mem {G : Type} (fromiso : String → Option PyDateTime)
    (m : List (String × Hotspot G)) :
    ∀ (wps : List Waypoint) (c : Nat) (l : List Advisory) (cf : Nat),
      _gen_go fromiso m wps c = .ok (l, cf) →
      ∀ a ∈ l, ∃ i w w2, wps[i]? = some w ∧ wps[i + 1]? = some w2 ∧
        ∃ hid hs k, _dict_get m hid = some hs ∧
          _mk_advisory fromiso w w2 hid hs k = .ok a := by
  intro wps
  induction wps with
  | nil =>
    intro c l cf h a ha
    simp only [_gen_go, Except.ok.injEq, Prod.mk.injEq] at h
    rw [← h.1] at ha
    cases ha
  | cons w rest ih =>
    intro c l cf h a ha
    match rest, h with
    | [], h =>
      simp only [_gen_go, Except.ok.injEq, Prod.mk.injEq] at h
      rw [← h.1] at ha
      cases ha
    | w2 :: rest2, h =>
      unfold _gen_go at h
      cases hrisk : w.leg.bind (fun leg => leg.riskAssessment) with
      | none =>
        rw [hrisk] at h
        obtain ⟨i, w1, w2x, hi, hi1, hrest⟩ :=
          ih c l cf h a ha
        exact ⟨i + 1, w1, w2x, by simpa using hi, by simpa using hi1, hrest⟩
      | some risk =>
        simp only [hrisk] at h
        cases hleg : _advisories_for_leg fromiso m w w2 risk.intersectingHotspots c with
        | error e => simp [hleg] at h
        | ok p =>
          obtain ⟨advsLeg, cNext⟩ := p
          simp only [hleg] at h
          cases hrec : _gen_go fromiso m (w2 :: rest2) cNext with
          | error e => simp [hrec] at h
          | ok q =>
            obtain ⟨advsRest, cF⟩ := q
            simp only [hrec, Except.ok.injEq, Prod.mk.injEq] at h
            rw [← h.1] at ha
            rcases List.mem_append.1 ha with ha1 | ha2
            · obtain ⟨hid, hs, k, hz, hmk⟩ :=
                _advisories_for_leg_mem fromiso m w w2
                  risk.intersectingHotspots c advsLeg cNext hleg a ha1
              exact ⟨0, w, w2, rfl, by simp, hid, hs, k, hz, hmk⟩
            · obtain ⟨i, w1, w2x, hi, hi1, hrest⟩ :=
                ih cNext advsRest cF hrec a ha2
              exact ⟨i + 1, w1, w2x, by simpa using hi, by simpa using hi1, hrest⟩

/-! ## C4: escalation law -/

/-- **C4**: an advisory whose `inPeakWindow` flag is true has severity
`high`; one whose flag is false carries exactly the tabled default
severity of its advisory type (high for `traffic_density_warning` and
`crossing_traffic_alert`, medium for `congestion_advisory`, low for
`fishing_activity_notice`, medium fallback for a type outside the
table). -/
theorem c4_escalation_law {G R : Type} (fromiso : String → Option PyDateTime)
    (enriched_waypoints : List Waypoint) (route_info : R)
    (hotspots : List (Hotspot G)) (advs : List Advisory) (a : Advisory)
    (h : generate_advisories fromiso enriched_waypoints route_info hotspots = .ok advs)
    (ha : a ∈ advs) :
    (a.structuredData.inPeakWindow = true → a.severity = "high") ∧
    (a.structuredData.inPeakWindow = false →
      a.severity = (_ADVISORY_DEFAULT_SEVERITY.lookup a.type).getD "medium") := by
  obtain ⟨m, l, c, hm, hg, rfl⟩ :=
    generate_advisories_inv fromiso enriched_waypoints route_info hotspots advs h
  have hal : a ∈ l := (List.mem_insertionSort _key_le).1 ha
  obtain ⟨i, w, w2, hi, hi1, hid, hs, k, hz, hmk⟩ :=
    _gen_go_mem fromiso m enriched_waypoints 1 l c hg a hal
  obtain ⟨_, _, _, _, _, htype, _, hsev⟩ :=
    _mk_advisory_fields fromiso w w2 hid hs k a hmk
  have hmem := _adv_type_and_default (hs.type.getD "high_traffic_density")
  rw [← htype] at hmem
  simp only [List.mem_cons, List.not_mem_nil, or_false, Prod.mk.injEq] at hmem
  constructor
  · intro hp
    rw [hp] at hsev
    rcases hmem with ⟨_, hds⟩ | ⟨_, hds⟩ | ⟨_, hds⟩ | ⟨_, hds⟩ <;> rw [hds] at hsev
    · rw [if_neg (by decide)] at hsev; exact hsev
    · rw [if_neg (by decide)] at hsev; exact hsev
    · rw [if_pos (by decide)] at hsev; exact hsev
    · rw [if_pos (by decide)] at hsev; exact hsev
  · intro hp
    rw [hp] at hsev
    rw [if_neg (by simp)] at hsev
    exact hsev

instance {e a : Type} [DecidableEq e] [DecidableEq a] :
    DecidableEq (Except e a) := fun x y =>
  match x, y with
  | .error v, .error w =>
    if h : v = w then .isTrue (by rw [h])
    else .isFalse (by intro hc; injection hc; contradiction)
  | .error _, .ok _ => .isFalse (by intro hc; cases hc)
  | .ok _, .error _ => .isFalse (by intro hc; cases hc)
  | .ok v, .ok w =>
    if h : v = w then .isTrue (by rw [h])
    else .isFalse (by intro hc; injection hc; contradiction)

def _dummy_advisory : Advisory :=
  { id := "", timestamp := "", type := "", severity := ""
    relatedWaypoints := [], relatedHotspots := [], title := "", message := ""
    structuredData :=
      { affectedLegStart := ⟨0, ""⟩, affectedLegEnd := ⟨0, ""⟩
        trafficDensity := none, vesselETA := none, peakWindow := none
        inPeakWindow := false, recommendedAction := "" }
    transmissionStatus := "", transmissionMethod := "" }

def _ex_adv : Advisory := _ex_advs5.headD _dummy_advisory

set_option maxRecDepth 40000 in
theorem c4_escalation_law_witness :
    generate_advisories fromisoformat_model [_ex_w0, _ex_w1] () [_ex_hotspot] =
      .ok _ex_advs5 ∧ _ex_adv ∈ _ex_advs5 ∧
    ((_ex_adv.structuredData.inPeakWindow = true → _ex_adv.severity = "high") ∧
     (_ex_adv.structuredData.inPeakWindow = false →
       _ex_adv.severity = (_ADVISORY_DEFAULT_SEVERITY.lookup _ex_adv.type).getD "medium")) := by
  have h : generate_advisories fromisoformat_model [_ex_w0, _ex_w1] () [_ex_hotspot] =
      .ok _ex_advs5 := rfl
  have hmem : _ex_adv ∈ _ex_advs5 := by decide
  exact ⟨h, hmem,
    c4_escalation_law fromisoformat_model [_ex_w0, _ex_w1] () [_ex_hotspot]
      _ex_advs5 _ex_adv h hmem⟩

/-! ## C1: the inPeakWindow flag -/

/-- **C1** (amended): for every emitted advisory, the `inPeakWindow` flag
is true exactly when the ETA of the **start** waypoint of the affected leg
— the value recorded in `structuredData.vesselETA` — is present, parses,
and its hour-of-day falls in some parsable `"HH:MM-HH:MM"` window of the
advisory's zone (`start_hour ≤ h < end_hour`, minutes ignored); if that
ETA is absent or unparsable, or the zone has no peak windows, the flag is
false and `_eta_in_peak_window` reports no matched window.  The frozen
claim instead said the *destination* waypoint's ETA; the destination's
ETA plays no role (see the counterexample). -/
theorem c1_peak_flag_characterisation {G R : Type}
    (fromiso : String → Option PyDateTime)
    (enriched_waypoints : List Waypoint) (route_info : R)
    (hotspots : List (Hotspot G)) (advs : List Advisory) (a : Advisory)
    (h : generate_advisories fromiso enriched_waypoints route_info hotspots = .ok advs)
    (ha : a ∈ advs) :
    (∃ i w w2, enriched_waypoints[i]? = some w ∧
      enriched_waypoints[i + 1]? = some w2 ∧
      a.structuredData.vesselETA = w.eta ∧
      a.structuredData.affectedLegStart = ⟨w.id, w.name⟩ ∧
      a.structuredData.affectedLegEnd = ⟨w2.id, w2.name⟩) ∧
    (∃ hid hs, a.relatedHotspots = [hid] ∧ _zone_for hotspots hid = some hs ∧
      (a.structuredData.inPeakWindow = true ↔
        ∃ s, a.structuredData.vesselETA = some s ∧ s ≠ "" ∧
          ∃ d, fromiso (_py_replace 'Z' "+00:00" s) = some d ∧
            ∃ w ∈ (hs.metadata.getD _empty_metadata).peak_hours_utc,
              ∃ p, _parse_peak_hour_window w = some p ∧
                p.1 ≤ (d.hour : Int) ∧ (d.hour : Int) < p.2)) ∧
    (∀ (eta : Option String) (ws : List String),
      (_eta_in_peak_window fromiso eta ws).1 = false →
      (_eta_in_peak_window fromiso eta ws).2 = none) := by
  obtain ⟨m, l, c, hm, hg, rfl⟩ :=
    generate_advisories_inv fromiso enriched_waypoints route_info hotspots advs h
  have hal : a ∈ l := (List.mem_insertionSort _key_le).1 ha
  obtain ⟨i, w, w2, hi, hi1, hid, hs, k, hz, hmk⟩ :=
    _gen_go_mem fromiso m enriched_waypoints 1 l c hg a hal
  obtain ⟨hrel, _, heta, hstart, hend, _, hflag, _⟩ :=
    _mk_advisory_fields fromiso w w2 hid hs k a hmk
  refine ⟨⟨i, w, w2, hi, hi1, heta, hstart, hend⟩,
    ⟨hid, hs, hrel, ?_, ?_⟩,
    fun eta ws => _eta_in_peak_window_snd_none fromiso eta ws⟩
  · rw [← _hs_by_id_dict_get hotspots m hm hid]; exact hz
  · rw [hflag, heta]
    exact _eta_in_peak_window_fst_iff fromiso w.eta _

set_option maxRecDepth 40000 in
/-- **C1, counterexample to the claim as frozen**: a concrete run in
which the single emitted advisory has `inPeakWindow = true` although the
ETA of the leg's *destination* waypoint (`affectedLegEnd`, waypoint 2) is
absent — the flag is driven by the start waypoint's ETA. -/
theorem c1_peak_flag_counterexample :
    generate_advisories fromisoformat_model [_ex_w0, _ex_w1] () [_ex_hotspot] =
      .ok [_ex_adv] ∧
    _ex_adv.structuredData.inPeakWindow = true ∧
    _ex_adv.severity = "high" ∧
    _ex_adv.structuredData.affectedLegEnd.waypointId = 2 ∧
    _ex_w1.id = 2 ∧ _ex_w1.eta = none ∧
    _ex_w0.eta = some "2026-04-27T07:30:00Z" := by
  exact ⟨by decide, by decide, by decide, by decide, by decide, by decide, by decide⟩

set_option maxRecDepth 40000 in
theorem c1_peak_flag_characterisation_witness :
    generate_advisories fromisoformat_model [_ex_w0, _ex_w1] () [_ex_hotspot] =
      .ok _ex_advs5 ∧ _ex_adv ∈ _ex_advs5 ∧
    ((∃ i w w2, [_ex_w0, _ex_w1][i]? = some w ∧ [_ex_w0, _ex_w1][i + 1]? = some w2 ∧
      _ex_adv.structuredData.vesselETA = w.eta ∧
      _ex_adv.structuredData.affectedLegStart = ⟨w.id, w.name⟩ ∧
      _ex_adv.structuredData.affectedLegEnd = ⟨w2.id, w2.name⟩) ∧
    (∃ hid hs, _ex_adv.relatedHotspots = [hid] ∧
      _zone_for [_ex_hotspot] hid = some hs ∧
      (_ex_adv.structuredData.inPeakWindow = true ↔
        ∃ s, _ex_adv.structuredData.vesselETA = some s ∧ s ≠ "" ∧
          ∃ d, fromisoformat_model (_py_replace 'Z' "+00:00" s) = some d ∧
            ∃ w ∈ (hs.metadata.getD _empty_metadata).peak_hours_utc,
              ∃ p, _parse_peak_hour_window w = some p ∧
                p.1 ≤ (d.hour : Int) ∧ (d.hour : Int) < p.2)) ∧
    (∀ (eta : Option String) (ws : List String),
      (_eta_in_peak_window fromisoformat_model eta ws).1 = false →
      (_eta_in_peak_window fromisoformat_model eta ws).2 = none)) := by
  have h : generate_advisories fromisoformat_model [_ex_w0, _ex_w1] () [_ex_hotspot] =
      .ok _ex_advs5 := rfl
  have hmem : _ex_adv ∈ _ex_advs5 := by decide
  exact ⟨h, hmem,
    c1_peak_flag_characterisation fromisoformat_model [_ex_w0, _ex_w1] ()
      [_ex_hotspot] _ex_advs5 _ex_adv h hmem⟩

/-! ## C6: zone fan-out -/

lemma _advisories_for_leg_length {G : Type} (fromiso : String → Option PyDateTime)
    (m : List (String × Hotspot G)) (wp wp_next : Waypoint) :
    ∀ (ids : List String) (c : Nat) (advs : List Advisory) (cf : Nat),
      _advisories_for_leg fromiso m wp wp_next ids c = .ok (advs, cf) →
      advs.length = (ids.filter (fun hid => (_dict_get m hid).isSome)).length := by
  intro ids
  induction ids with
  | nil =>
    intro c advs cf h
    simp only [_advisories_for_leg, Except.ok.injEq, Prod.mk.injEq] at h
    rw [← h.1]; rfl
  | cons hid t ih =>
    intro c advs cf h
    unfold _advisories_for_leg at h
    cases hz : _dict_get m hid with
    | none =>
      rw [hz] at h
      rw [List.filter_cons_of_neg (by simp [hz])]
      exact ih c advs cf h
    | some hs =>
      simp only [hz] at h
      cases hmk : _mk_advisory fromiso wp wp_next hid hs c with
      | error e => simp [hmk] at h
      | ok adv =>
        simp only [hmk] at h
        cases hrec : _advisories_for_leg fromiso m wp wp_next t (c + 1) with
        | error e => simp [hrec] at h
        | ok p =>
          obtain ⟨rest, cF⟩ := p
          simp only [hrec, Except.ok.injEq, Prod.mk.injEq] at h
          rw [← h.1]
          rw [List.filter_cons_of_pos (by simp [hz])]
          simp [ih (c + 1) rest cF hrec]

lemma _gen_go_length {G : Type} (fromiso : String → Option PyDateTime)
    (m : List (String × Hotspot G)) :
    ∀ (wps : List Waypoint) (c : Nat) (l : List Advisory) (cf : Nat),
      _gen_go fromiso m wps c = .ok (l, cf) →
      l.length = ((_leg_risks wps).map
        (fun r => (r.intersectingHotspots.filter
          (fun hid => (_dict_get m hid).isSome)).length)).sum := by
  intro wps
  induction wps with
  | nil =>
    intro c l cf h
    simp only [_gen_go, Except.ok.injEq, Prod.mk.injEq] at h
    rw [← h.1]; rfl
  | cons w rest ih =>
    intro c l cf h
    match rest, h with
    | [], h =>
      simp only [_gen_go, Except.ok.injEq, Prod.mk.injEq] at h
      rw [← h.1]; rfl
    | w2 :: rest2, h =>
      unfold _gen_go at h
      cases hrisk : w.leg.bind (fun leg => leg.riskAssessment) with
      | none =>
        rw [hrisk] at h
        have hlr : _leg_risks (w :: w2 :: rest2) = _leg_risks (w2 :: rest2) := by
          show (match w.leg.bind (fun leg => leg.riskAssessment) with
                | none => _leg_risks (w2 :: rest2)
                | some r => r :: _leg_risks (w2 :: rest2)) = _leg_risks (w2 :: rest2)
          rw [hrisk]
        rw [hlr]
        exact ih c l cf h
      | some risk =>
        simp only [hrisk] at h
        cases hleg : _advisories_for_leg fromiso m w w2 risk.intersectingHotspots c with
        | error e => simp [hleg] at h
        | ok p =>
          obtain ⟨advsLeg, cNext⟩ := p
          simp only [hleg] at h
          cases hrec : _gen_go fromiso m (w2 :: rest2) cNext with
          | error e => simp [hrec] at h
          | ok q =>
            obtain ⟨advsRest, cF⟩ := q
            simp only [hrec, Except.ok.injEq, Prod.mk.injEq] at h
            rw [← h.1]
            have hlr : _leg_risks (w :: w2 :: rest2) = risk :: _leg_risks (w2 :: rest2) := by
              show (match w.leg.bind (fun leg => leg.riskAssessment) with
                    | none => _leg_risks (w2 :: rest2)
                    | some r => r :: _leg_risks (w2 :: rest2)) =
                risk :: _leg_risks (w2 :: rest2)
              rw [hrisk]
            rw [hlr]
            simp only [List.length_append, List.map_cons, List.sum_cons]
            rw [_advisories_for_leg_length fromiso m w w2
              risk.intersectingHotspots c advsLeg cNext hleg,
              ih cNext advsRest cF hrec]

/-- **C6** (amended): per risky leg, the generator emits one advisory per
listed hotspot id *that resolves in the catalogue* — so exactly k when
every listed id resolves — and every emitted advisory references exactly
one hotspot id.  An id absent from the catalogue is silently skipped (see
the counterexample). -/
theorem c6_zone_fanout {G R : Type} (fromiso : String → Option PyDateTime)
    (enriched_waypoints : List Waypoint) (route_info : R)
    (hotspots : List (Hotspot G)) (advs : List Advisory)
    (h : generate_advisories fromiso enriched_waypoints route_info hotspots = .ok advs)
    (hres : ∀ r ∈ _leg_risks enriched_waypoints,
      ∀ hid ∈ r.intersectingHotspots, (_zone_for hotspots hid).isSome = true) :
    advs.length = ((_leg_risks enriched_waypoints).map
      (fun r => r.intersectingHotspots.length)).sum ∧
    (∀ (m : List (String × Hotspot G)) (wp wp_next : Waypoint)
       (ids : List String) (c : Nat) (advsLeg : List Advisory) (cf : Nat),
      _advisories_for_leg fromiso m wp wp_next ids c = .ok (advsLeg, cf) →
      (∀ hid ∈ ids, (_dict_get m hid).isSome = true) →
      advsLeg.length = ids.length) ∧
    (∀ a ∈ advs, a.relatedHotspots.length = 1) := by
  obtain ⟨m, l, c, hm, hg, rfl⟩ :=
    generate_advisories_inv fromiso enriched_waypoints route_info hotspots advs h
  refine ⟨?_, ?_, ?_⟩
  · rw [List.length_insertionSort]
    rw [_gen_go_length fromiso m enriched_waypoints 1 l c hg]
    congr 1
    apply List.map_congr_left
    intro r hr
    congr 1
    apply List.filter_eq_self.2
    intro hid hhid
    rw [_hs_by_id_dict_get hotspots m hm hid]
    exact hres r hr hid hhid
  · intro m2 wp wp_next ids c2 advsLeg cf hleg hall
    rw [_advisories_for_leg_length fromiso m2 wp wp_next ids c2 advsLeg cf hleg]
    congr 1
    apply List.filter_eq_self.2
    exact hall
  · intro a ha
    have hal : a ∈ l := (List.mem_insertionSort _key_le).1 ha
    obtain ⟨i, w, w2, hi, hi1, hid, hs, k, hz, hmk⟩ :=
      _gen_go_mem fromiso m enriched_waypoints 1 l c hg a hal
    obtain ⟨hrel, _⟩ := _mk_advisory_fields fromiso w w2 hid hs k a hmk
    rw [hrel]; rfl

def _ex_risk_ghost : RiskAssessment :=
  { level := "high", intersectingHotspots := ["GHOST"], summary := "" }

def _ex_w0g : Waypoint :=
  { _ex_w0 with leg := some { _empty_leg with riskAssessment := some _ex_risk_ghost } }

/-- **C6, counterexample to the claim as frozen**: a leg whose risk
assessment lists one hotspot id yields zero advisories when that id does
not resolve in the catalogue handed to `generate_advisories`. -/
theorem c6_zone_fanout_counterexample :
    generate_advisories fromisoformat_model [_ex_w0g, _ex_w1] ()
      ([] : List (Hotspot Unit)) = .ok [] ∧
    (_ex_w0g.leg.bind (fun l => l.riskAssessment)).map
      (fun r => r.intersectingHotspots.length) = some 1 := by
  exact ⟨by decide, by decide⟩

set_option maxRecDepth 40000 in
theorem c6_zone_fanout_witness :
    generate_advisories fromisoformat_model [_ex_w0, _ex_w1] () [_ex_hotspot] =
      .ok _ex_advs5 ∧
    (∀ r ∈ _leg_risks [_ex_w0, _ex_w1],
      ∀ hid ∈ r.intersectingHotspots, (_zone_for [_ex_hotspot] hid).isSome = true) ∧
    (_ex_advs5.length = ((_leg_risks [_ex_w0, _ex_w1]).map
        (fun r => r.intersectingHotspots.length)).sum ∧
      (∀ (m : List (String × Hotspot Unit)) (wp wp_next : Waypoint)
         (ids : List String) (c : Nat) (advsLeg : List Advisory) (cf : Nat),
        _advisories_for_leg fromisoformat_model m wp wp_next ids c = .ok (advsLeg, cf) →
        (∀ hid ∈ ids, (_dict_get m hid).isSome = true) →
        advsLeg.length = ids.length) ∧
      (∀ a ∈ _ex_advs5, a.relatedHotspots.length = 1)) := by
  have h : generate_advisories fromisoformat_model [_ex_w0, _ex_w1] () [_ex_hotspot] =
      .ok _ex_advs5 := rfl
  have hres : ∀ r ∈ _leg_risks [_ex_w0, _ex_w1],
      ∀ hid ∈ r.intersectingHotspots, (_zone_for [_ex_hotspot] hid).isSome = true := by
    decide
  exact ⟨h, hres,
    c6_zone_fanout fromisoformat_model [_ex_w0, _ex_w1] () [_ex_hotspot]
      _ex_advs5 h hres⟩

/-! ## Analyzer lemmas (C3, C7) -/

lemma _summary_parts_eq {G : Type} :
    ∀ (l : List (Hotspot G)) (parts : List String),
      _summary_parts l = .ok parts →
      parts = l.map (fun hh => hh.name.getD "" ++ ": avg " ++
        _avg_display (hh.metadata.getD _empty_metadata) ++ " vessels/hour.") := by
  intro l
  induction l with
  | nil =>
    intro parts h
    simp only [_summary_parts, Except.ok.injEq] at h
    rw [← h]; rfl
  | cons hh t ih =>
    intro parts h
    unfold _summary_parts at h
    cases hn : hh.name with
    | none => rw [hn] at h; cases h
    | some nm =>
      simp only [hn] at h
      cases hrec : _summary_parts t with
      | error e => simp [hrec] at h
      | ok rest =>
        simp only [hrec, Except.ok.injEq] at h
        rw [← h, ih rest hrec]
        simp [hn]

lemma _hs_id_list_eq {G : Type} :
    ∀ (l : List (Hotspot G)) (ids : List String),
      _hs_id_list l = .ok ids → ids = l.map (fun hh => hh.id.getD "") := by
  intro l
  induction l with
  | nil =>
    intro ids h
    simp only [_hs_id_list, Except.ok.injEq] at h
    rw [← h]; rfl
  | cons hh t ih =>
    intro ids h
    unfold _hs_id_list at h
    cases hn : hh.id with
    | none => rw [hn] at h; cases h
    | some i =>
      simp only [hn] at h
      cases hrec : _hs_id_list t with
      | error e => simp [hrec] at h
      | ok rest =>
        simp only [hrec, Except.ok.injEq] at h
        rw [← h, ih rest hrec]
        simp [hn]

lemma _summary_parts_isOk {G : Type} :
    ∀ l : List (Hotspot G), (∀ hh ∈ l, hh.name.isSome = true) →
      ∃ parts, _summary_parts l = .ok parts := by
  intro l
  induction l with
  | nil => intro _; exact ⟨[], rfl⟩
  | cons hh t ih =>
    intro hall
    obtain ⟨nm, hn⟩ := Option.isSome_iff_exists.1 (hall hh (by simp))
    obtain ⟨rest, hrest⟩ := ih (fun x hx => hall x (by simp [hx]))
    refine ⟨(nm ++ ": avg " ++ _avg_display (hh.metadata.getD _empty_metadata)
      ++ " vessels/hour.") :: rest, ?_⟩
    unfold _summary_parts
    rw [hn, hrest]

lemma _hs_id_list_isOk {G : Type} :
    ∀ l : List (Hotspot G), (∀ hh ∈ l, hh.id.isSome = true) →
      ∃ ids, _hs_id_list l = .ok ids := by
  intro l
  induction l with
  | nil => intro _; exact ⟨[], rfl⟩
  | cons hh t ih =>
    intro hall
    obtain ⟨i, hn⟩ := Option.isSome_iff_exists.1 (hall hh (by simp))
    obtain ⟨rest, hrest⟩ := ih (fun x hx => hall x (by simp [hx]))
    refine ⟨i :: rest, ?_⟩
    unfold _hs_id_list
    rw [hn, hrest]

/-- The pre-built shapely list projects onto the sub-catalogue of zones
whose geometry constructs. -/
lemma _prebuilt_fst {G S : Type} (shapeFn : G → Option S) :
    ∀ hotspots : List (Hotspot G),
      (_prebuilt shapeFn hotspots).map (fun p => p.1) =
        hotspots.filter (fun hs => (hs.geometry.bind shapeFn).isSome) := by
  intro hotspots
  induction hotspots with
  | nil => rfl
  | cons hs t ih =>
    cases hg : hs.geometry.bind shapeFn with
    | none =>
      rw [List.filter_cons_of_neg (by simp [hg])]
      have hstep : _prebuilt shapeFn (hs :: t) = _prebuilt shapeFn t := by
        unfold _prebuilt
        rw [List.filterMap_cons, hg]
        rfl
      rw [hstep, ih]
    | some g =>
      rw [List.filter_cons_of_pos (by simp [hg])]
      have hstep : _prebuilt shapeFn (hs :: t) = (hs, g) :: _prebuilt shapeFn t := by
        unfold _prebuilt
        rw [List.filterMap_cons, hg]
        rfl
      rw [hstep, List.map_cons, ih]

lemma _leg_intersecting_sublist {G S : Type} (shapeFn : G → Option S)
    (itsFn : ℚ × ℚ → ℚ × ℚ → S → Option Bool)
    (hotspots : List (Hotspot G)) (w w2 : Waypoint) :
    (_leg_intersecting itsFn (_prebuilt shapeFn hotspots) w w2).Sublist hotspots := by
  have h1 : (_leg_intersecting itsFn (_prebuilt shapeFn hotspots) w w2).Sublist
      ((_prebuilt shapeFn hotspots).map (fun p => p.1)) := by
    unfold _leg_intersecting
    exact List.Sublist.map (fun p : Hotspot G × S => p.1)
      (List.filter_sublist (_prebuilt shapeFn hotspots))
  have h2 : ((_prebuilt shapeFn hotspots).map (fun p => p.1)).Sublist hotspots := by
    rw [_prebuilt_fst]
    exact List.filter_sublist hotspots
  exact h1.trans h2

/-- Restricting the catalogue to zones whose geometry constructs leaves
the pre-built list unchanged. -/
lemma _prebuilt_filter {G S : Type} (shapeFn : G → Option S) :
    ∀ hotspots : List (Hotspot G),
      _prebuilt shapeFn (hotspots.filter
        (fun hs => (hs.geometry.bind shapeFn).isSome)) =
      _prebuilt shapeFn hotspots := by
  intro hotspots
  induction hotspots with
  | nil => rfl
  | cons hs t ih =>
    cases hg : hs.geometry.bind shapeFn with
    | none =>
      rw [List.filter_cons_of_neg (by simp [hg])]
      unfold _prebuilt
      simp only [List.filterMap_cons, hg, Option.map_none]
      exact ih
    | some g =>
      rw [List.filter_cons_of_pos (by simp [hg])]
      unfold _prebuilt
      simp only [List.filterMap_cons, hg, Option.map_some]
      rw [show List.filterMap
        (fun hs => (hs.geometry.bind shapeFn).map fun g => (hs, g))
        (t.filter fun hs => (hs.geometry.bind shapeFn).isSome) =
          _prebuilt shapeFn (t.filter fun hs => (hs.geometry.bind shapeFn).isSome)
        from rfl, ih]
      rfl

/-- Python `max(l, key=rank)`: the fold keeps a member attaining the
maximal rank. -/
lemma _foldl_rank_max {G : Type} :
    ∀ (t : List (Hotspot G)) (b : Hotspot G),
      (t.foldl (fun best x => if _hs_rank best < _hs_rank x then x else best) b = b ∨
        t.foldl (fun best x => if _hs_rank best < _hs_rank x then x else best) b ∈ t) ∧
      _hs_rank b ≤ _hs_rank
        (t.foldl (fun best x => if _hs_rank best < _hs_rank x then x else best) b) ∧
      ∀ x ∈ t, _hs_rank x ≤ _hs_rank
        (t.foldl (fun best x => if _hs_rank best < _hs_rank x then x else best) b) := by
  intro t
  induction t with
  | nil =>
    intro b
    exact ⟨Or.inl rfl, le_refl _, fun x hx => absurd hx (List.not_mem_nil x)⟩
  | cons y t ih =>
    intro b
    simp only [List.foldl_cons]
    obtain ⟨hmem, hacc, hall⟩ := ih (if _hs_rank b < _hs_rank y then y else b)
    have hby : _hs_rank b ≤ _hs_rank (if _hs_rank b < _hs_rank y then y else b) := by
      by_cases hc : _hs_rank b < _hs_rank y
      · rw [if_pos hc]; omega
      · rw [if_neg hc]
    have hyy : _hs_rank y ≤ _hs_rank (if _hs_rank b < _hs_rank y then y else b) := by
      by_cases hc : _hs_rank b < _hs_rank y
      · rw [if_pos hc]
      · rw [if_neg hc]; omega
    refine ⟨?_, le_trans hby hacc, ?_⟩
    · rcases hmem with heq | hmemt
      · by_cases hc : _hs_rank b < _hs_rank y
        · rw [if_pos hc] at heq ⊢
          exact Or.inr (by simp [heq])
        · rw [if_neg hc] at heq ⊢
          exact Or.inl heq
      · exact Or.inr (by simp [hmemt])
    · intro x hx
      rcases List.mem_cons.1 hx with rfl | hx2
      · exact le_trans hyy hacc
      · exact hall x hx2

/-- The surfaced risk level is the severity of a rank-maximal
intersecting zone. -/
lemma _risk_level_max {G : Type} (inter : List (Hotspot G)) (hne : inter ≠ []) :
    (∃ hh ∈ inter, hh.severity.getD "low" = _risk_level inter) ∧
    ∀ hh ∈ inter, _hs_rank hh ≤ _rank_str (_risk_level inter) := by
  cases inter with
  | nil => exact absurd rfl hne
  | cons h0 t =>
    obtain ⟨hmem, hacc, hall⟩ := _foldl_rank_max t h0
    have hlvl : _risk_level (h0 :: t) =
        (t.foldl (fun best x => if _hs_rank best < _hs_rank x then x else best)
          h0).severity.getD "low" := rfl
    have hrank : _rank_str (_risk_level (h0 :: t)) = _hs_rank
        (t.foldl (fun best x => if _hs_rank best < _hs_rank x then x else best) h0) := by
      rw [hlvl]; rfl
    constructor
    · rcases hmem with heq | hmemt
      · exact ⟨h0, by simp, by rw [hlvl, heq]⟩
      · exact ⟨_, by simp [hmemt], hlvl.symm⟩
    · intro hh hhmem
      rw [hrank]
      rcases List.mem_cons.1 hhmem with rfl | hh2
      · exact hacc
      · exact hall hh hh2

/-- The risk-assessment record a list of intersecting zones produces,
with the `id`/`name` keys already known present (`getD` is then exact). -/
def _risk_of {G : Type} (inter : List (Hotspot G)) : RiskAssessment :=
  { level := _risk_level inter
    intersectingHotspots := inter.map (fun hh => hh.id.getD "")
    summary := String.intercalate " " (inter.map (fun hh =>
      hh.name.getD "" ++ ": avg " ++
      _avg_display (hh.metadata.getD _empty_metadata) ++ " vessels/hour.")) }

/-- Unpacking of one leg enrichment. -/
lemma _enrich_wp_spec {G S : Type} (itsFn : ℚ × ℚ → ℚ × ℚ → S → Option Bool)
    (sh : List (Hotspot G × S)) (w w2 o : Waypoint)
    (h : _enrich_wp itsFn sh w w2 = .ok o) :
    (_leg_intersecting itsFn sh w w2 = [] → o = w) ∧
    (_leg_intersecting itsFn sh w w2 ≠ [] →
      o = { w with leg := some { w.leg.getD _empty_leg with
        riskAssessment := some (_risk_of (_leg_intersecting itsFn sh w w2)) } }) := by
  unfold _enrich_wp at h
  by_cases hemp : (_leg_intersecting itsFn sh w w2).isEmpty
  · rw [if_pos hemp] at h
    simp only [Except.ok.injEq] at h
    exact ⟨fun _ => h.symm, fun hne => absurd (List.isEmpty_iff.1 hemp) hne⟩
  · rw [if_neg hemp] at h
    refine ⟨fun he => absurd (List.isEmpty_iff.2 he) hemp, fun _ => ?_⟩
    cases hrf : _risk_for (_leg_intersecting itsFn sh w w2) with
    | error e => rw [hrf] at h; cases h
    | ok risk =>
      simp only [hrf, Except.ok.injEq] at h
      unfold _risk_for at hrf
      cases hsp : _summary_parts (_leg_intersecting itsFn sh w w2) with
      | error e => rw [hsp] at hrf; cases hrf
      | ok parts =>
        simp only [hsp] at hrf
        cases hil : _hs_id_list (_leg_intersecting itsFn sh w w2) with
        | error e => simp [hil] at hrf
        | ok ids =>
          simp only [hil, Except.ok.injEq] at hrf
          rw [← h, ← hrf, _risk_of,
            _summary_parts_eq _ parts hsp, _hs_id_list_eq _ ids hil]

/-- Positional description of `_analyze_go`. -/
lemma _analyze_go_get {G S : Type} (itsFn : ℚ × ℚ → ℚ × ℚ → S → Option Bool)
    (sh : List (Hotspot G × S)) :
    ∀ (wps out : List Waypoint), _analyze_go itsFn sh wps = .ok out →
      out.length = wps.length ∧
      (∀ i w w2, wps[i]? = some w → wps[i + 1]? = some w2 →
        ∃ o, out[i]? = some o ∧ _enrich_wp itsFn sh w w2 = .ok o) ∧
      (∀ i w, wps[i]? = some w → wps[i + 1]? = none → out[i]? = some w) := by
  intro wps
  induction wps with
  | nil =>
    intro out h
    simp only [_analyze_go, Except.ok.injEq] at h
    subst h
    exact ⟨rfl, fun i w w2 hi => by simp at hi, fun i w hi => by simp at hi⟩
  | cons w rest ih =>
    intro out h
    match rest, h with
    | [], h =>
      simp only [_analyze_go, Except.ok.injEq] at h
      subst h
      refine ⟨rfl, ?_, ?_⟩
      · intro i w1 w2 hi hi1
        rcases i with _ | i <;> simp at hi hi1
      · intro i w1 hi hi1
        rcases i with _ | i
        · have hw : w1 = w := by simpa using hi.symm
          subst hw; rfl
        · simp at hi
    | w2 :: rest2, h =>
      unfold _analyze_go at h
      cases hen : _enrich_wp itsFn sh w w2 with
      | error e => rw [hen] at h; cases h
      | ok wE =>
        simp only [hen] at h
        cases hrec : _analyze_go itsFn sh (w2 :: rest2) with
        | error e => simp [hrec] at h
        | ok tail =>
          simp only [hrec, Except.ok.injEq] at h
          subst h
          obtain ⟨hlen, hmid, hlast⟩ := ih tail hrec
          refine ⟨by simpa using hlen, ?_, ?_⟩
          · intro i w1 wn hi hi1
            rcases i with _ | i
            · have hw : w1 = w := by simpa using hi.symm
              have hwn : wn = w2 := by simpa using hi1.symm
              subst hw; subst hwn
              exact ⟨wE, by simp, hen⟩
            · rw [List.getElem?_cons_succ] at hi hi1
              obtain ⟨o, ho, heno⟩ := hmid i w1 wn hi hi1
              refine ⟨o, ?_, heno⟩
              rw [List.getElem?_cons_succ]
              exact ho
          · intro i w1 hi hi1
            rcases i with _ | i
            · simp at hi1
            · rw [List.getElem?_cons_succ] at hi hi1
              rw [List.getElem?_cons_succ]
              exact hlast i w1 hi hi1

lemma _risk_for_isOk {G : Type} (inter : List (Hotspot G))
    (hnames : ∀ hh ∈ inter, hh.name.isSome = true)
    (hids : ∀ hh ∈ inter, hh.id.isSome = true) :
    ∃ r, _risk_for inter = .ok r := by
  obtain ⟨parts, hp⟩ := _summary_parts_isOk inter hnames
  obtain ⟨ids, hi⟩ := _hs_id_list_isOk inter hids
  refine ⟨{ level := _risk_level inter, intersectingHotspots := ids
            summary := String.intercalate " " parts }, ?_⟩
  unfold _risk_for
  rw [hp, hi]

lemma _analyze_go_isOk {G S : Type} (shapeFn : G → Option S)
    (itsFn : ℚ × ℚ → ℚ × ℚ → S → Option Bool) (hotspots : List (Hotspot G))
    (hok : ∀ hs ∈ hotspots, hs.name.isSome = true ∧ hs.id.isSome = true) :
    ∀ wps, ∃ out, _analyze_go itsFn (_prebuilt shapeFn hotspots) wps = .ok out := by
  intro wps
  induction wps with
  | nil => exact ⟨[], rfl⟩
  | cons w rest ih =>
    match rest, ih with
    | [], _ => exact ⟨[w], rfl⟩
    | w2 :: rest2, ih =>
      obtain ⟨tail, htail⟩ := ih
      have hsub := _leg_intersecting_sublist shapeFn itsFn hotspots w w2
      have henr : ∃ wE, _enrich_wp itsFn (_prebuilt shapeFn hotspots) w w2 = .ok wE := by
        unfold _enrich_wp
        by_cases hemp : (_leg_intersecting itsFn (_prebuilt shapeFn hotspots) w w2).isEmpty
        · rw [if_pos hemp]; exact ⟨w, rfl⟩
        · rw [if_neg hemp]
          obtain ⟨r, hr⟩ := _risk_for_isOk
            (_leg_intersecting itsFn (_prebuilt shapeFn hotspots) w w2)
            (fun hh hmem => (hok hh (hsub.subset hmem)).1)
            (fun hh hmem => (hok hh (hsub.subset hmem)).2)
          rw [hr]
          exact ⟨_, rfl⟩
      obtain ⟨wE, hE⟩ := henr
      refine ⟨wE :: tail, ?_⟩
      unfold _analyze_go
      rw [hE, htail]

/-- **C3** (amended): `analyze_route` never fails *provided every hotspot
record carries its `name` and `id` keys*; zones whose geometry is missing
or fails to construct are silently excluded — dropping them from the
catalogue does not change the result at all.  (Without the key proviso the
claim is false: a nameless zone that intersects a leg raises `KeyError`,
see the counterexample.) -/
theorem c3_geometry_error_recovery {G S : Type} (shapeFn : G → Option S)
    (itsFn : ℚ × ℚ → ℚ × ℚ → S → Option Bool)
    (waypoints : List Waypoint) (hotspots : List (Hotspot G))
    (hkeys : ∀ hs ∈ hotspots, hs.name.isSome = true ∧ hs.id.isSome = true) :
    (∃ out, analyze_route shapeFn itsFn waypoints hotspots = .ok out) ∧
    analyze_route shapeFn itsFn waypoints hotspots =
      analyze_route shapeFn itsFn waypoints
        (hotspots.filter (fun hs => (hs.geometry.bind shapeFn).isSome)) := by
  constructor
  · exact _analyze_go_isOk shapeFn itsFn hotspots hkeys waypoints
  · unfold analyze_route
    rw [_prebuilt_filter]

def _ex_nameless : Hotspot Unit :=
  { id := some "HS-2", name := none, type := none, severity := some "high"
    geometry := some (), metadata := none }

def _ex_w0plain : Waypoint := { _ex_w0 with leg := none }

/-- **C3, counterexample to the claim as frozen**: a hotspot whose dict
lacks the `name` key intersects the leg and the whole analysis fails with
`KeyError` — malformed hotspot data *can* fail the analysis. -/
theorem c3_geometry_error_recovery_counterexample :
    analyze_route (G := Unit) (S := Unit) (fun _ => some ())
      (fun _ _ _ => some true) [_ex_w0plain, _ex_w1] [_ex_nameless] =
      .error "KeyError: name" := by
  decide

theorem c3_geometry_error_recovery_witness :
    (∀ hs ∈ [_ex_hotspot], hs.name.isSome = true ∧ hs.id.isSome = true) ∧
    ((∃ out, analyze_route (G := Unit) (S := Unit) (fun _ => some ())
        (fun _ _ _ => some true) [_ex_w0plain, _ex_w1] [_ex_hotspot] = .ok out) ∧
      analyze_route (G := Unit) (S := Unit) (fun _ => some ())
          (fun _ _ _ => some true) [_ex_w0plain, _ex_w1] [_ex_hotspot] =
        analyze_route (fun _ => some ()) (fun _ _ _ => some true)
          [_ex_w0plain, _ex_w1]
          ([_ex_hotspot].filter (fun hs => (hs.geometry.bind (fun _ => some ())).isSome))) := by
  have hkeys : ∀ hs ∈ [_ex_hotspot], hs.name.isSome = true ∧ hs.id.isSome = true := by
    decide
  exact ⟨hkeys,
    c3_geometry_error_recovery (fun _ => some ()) (fun _ _ _ => some true)
      [_ex_w0plain, _ex_w1] [_ex_hotspot] hkeys⟩

/-- **C7**: for a successful analysis, the output matches the input
positionally; a leg with no intersecting zone keeps its waypoint
unchanged, a leg with intersecting zones gets a risk assessment whose
level is the severity of a rank-maximal intersecting zone (so its rank
dominates every intersecting zone), whose id list and whose
space-joined `"<name>: avg <avg|?> vessels/hour."` summary follow
catalogue order (the intersection list is a sublist of the catalogue);
the last waypoint — having no outgoing leg — is returned unchanged. -/
theorem c7_leg_risk_assessment {G S : Type} (shapeFn : G → Option S)
    (itsFn : ℚ × ℚ → ℚ × ℚ → S → Option Bool)
    (waypoints : List Waypoint) (hotspots : List (Hotspot G))
    (out : List Waypoint)
    (h : analyze_route shapeFn itsFn waypoints hotspots = .ok out) :
    out.length = waypoints.length ∧
    (∀ i w w2, waypoints[i]? = some w → waypoints[i + 1]? = some w2 →
      (_leg_intersecting itsFn (_prebuilt shapeFn hotspots) w w2).Sublist hotspots ∧
      (_leg_intersecting itsFn (_prebuilt shapeFn hotspots) w w2 = [] →
        out[i]? = some w) ∧
      (_leg_intersecting itsFn (_prebuilt shapeFn hotspots) w w2 ≠ [] →
        out[i]? = some { w with leg := some { w.leg.getD _empty_leg with
          riskAssessment := some
            (_risk_of (_leg_intersecting itsFn (_prebuilt shapeFn hotspots) w w2)) } } ∧
        (∃ hh ∈ _leg_intersecting itsFn (_prebuilt shapeFn hotspots) w w2,
          hh.severity.getD "low" =
            (_risk_of (_leg_intersecting itsFn (_prebuilt shapeFn hotspots) w w2)).level) ∧
        (∀ hh ∈ _leg_intersecting itsFn (_prebuilt shapeFn hotspots) w w2,
          _hs_rank hh ≤ _rank_str
            (_risk_of (_leg_intersecting itsFn (_prebuilt shapeFn hotspots) w w2)).level))) ∧
    (∀ i w, waypoints[i]? = some w → waypoints[i + 1]? = none →
      out[i]? = some w) := by
  unfold analyze_route at h
  obtain ⟨hlen, hmid, hlast⟩ :=
    _analyze_go_get itsFn (_prebuilt shapeFn hotspots) waypoints out h
  refine ⟨hlen, ?_, hlast⟩
  intro i w w2 hi hi1
  obtain ⟨o, ho, hen⟩ := hmid i w w2 hi hi1
  obtain ⟨hempcase, hnecase⟩ :=
    _enrich_wp_spec itsFn (_prebuilt shapeFn hotspots) w w2 o hen
  refine ⟨_leg_intersecting_sublist shapeFn itsFn hotspots w w2, ?_, ?_⟩
  · intro he
    rw [ho, hempcase he]
  · intro hne
    have hrl := _risk_level_max
      (_leg_intersecting itsFn (_prebuilt shapeFn hotspots) w w2) hne
    refine ⟨by rw [ho, hnecase hne], ?_, ?_⟩
    · simpa [_risk_of] using hrl.1
    · simpa [_risk_of] using hrl.2

def _ex_analyzed : List Waypoint :=
  (analyze_route (G := Unit) (S := Unit) (fun _ => some ())
    (fun _ _ _ => some true) [_ex_w0plain, _ex_w1] [_ex_hotspot]).toOption.getD []

theorem c7_leg_risk_assessment_witness :
    analyze_route (G := Unit) (S := Unit) (fun _ => some ())
      (fun _ _ _ => some true) [_ex_w0plain, _ex_w1] [_ex_hotspot] =
      .ok _ex_analyzed ∧
    (_ex_analyzed.length = [_ex_w0plain, _ex_w1].length ∧
      (∀ i w w2, [_ex_w0plain, _ex_w1][i]? = some w →
        [_ex_w0plain, _ex_w1][i + 1]? = some w2 →
        (_leg_intersecting (fun _ _ _ => some true)
          (_prebuilt (fun _ => some ()) [_ex_hotspot]) w w2).Sublist [_ex_hotspot] ∧
        (_leg_intersecting (fun _ _ _ => some true)
            (_prebuilt (fun _ => some ()) [_ex_hotspot]) w w2 = [] →
          _ex_analyzed[i]? = some w) ∧
        (_leg_intersecting (fun _ _ _ => some true)
            (_prebuilt (fun _ => some ()) [_ex_hotspot]) w w2 ≠ [] →
          _ex_analyzed[i]? = some { w with leg := some { w.leg.getD _empty_leg with
            riskAssessment := some (_risk_of (_leg_intersecting (fun _ _ _ => some true)
              (_prebuilt (fun _ => some ()) [_ex_hotspot]) w w2)) } } ∧
          (∃ hh ∈ _leg_intersecting (fun _ _ _ => some true)
              (_prebuilt (fun _ => some ()) [_ex_hotspot]) w w2,
            hh.severity.getD "low" = (_risk_of (_leg_intersecting (fun _ _ _ => some true)
              (_prebuilt (fun _ => some ()) [_ex_hotspot]) w w2)).level) ∧
          (∀ hh ∈ _leg_intersecting (fun _ _ _ => some true)
              (_prebuilt (fun _ => some ()) [_ex_hotspot]) w w2,
            _hs_rank hh ≤ _rank_str (_risk_of (_leg_intersecting (fun _ _ _ => some true)
              (_prebuilt (fun _ => some ()) [_ex_hotspot]) w w2)).level))) ∧
      (∀ i w, [_ex_w0plain, _ex_w1][i]? = some w →
        [_ex_w0plain, _ex_w1][i + 1]? = none → _ex_analyzed[i]? = some w)) := by
  have h : analyze_route (G := Unit) (S := Unit) (fun _ => some ())
      (fun _ _ _ => some true) [_ex_w0plain, _ex_w1] [_ex_hotspot] =
      .ok _ex_analyzed := rfl
  exact ⟨h,
    c7_leg_risk_assessment (fun _ => some ()) (fun _ _ _ => some true)
      [_ex_w0plain, _ex_w1] [_ex_hotspot] _ex_analyzed h⟩

/-! ## C8: risk summary -/

/-- The running-maximum fold of `compute_risk_summary`. -/
lemma _fold_level_max : ∀ (rs : List RiskAssessment) (ov : String),
    (rs.foldl (fun o r => if _rank_str o < _rank_str r.level then r.level else o) ov = ov ∨
      rs.foldl (fun o r => if _rank_str o < _rank_str r.level then r.level else o) ov ∈
        rs.map (fun r => r.level)) ∧
    _rank_str ov ≤ _rank_str
      (rs.foldl (fun o r => if _rank_str o < _rank_str r.level then r.level else o) ov) ∧
    ∀ r ∈ rs, _rank_str r.level ≤ _rank_str
      (rs.foldl (fun o r => if _rank_str o < _rank_str r.level then r.level else o) ov) := by
  intro rs
  induction rs with
  | nil =>
    intro ov
    exact ⟨Or.inl rfl, le_refl _, fun r hr => absurd hr (List.not_mem_nil r)⟩
  | cons r0 t ih =>
    intro ov
    simp only [List.foldl_cons]
    obtain ⟨hmem, hacc, hall⟩ := ih (if _rank_str ov < _rank_str r0.level then r0.level else ov)
    have hov : _rank_str ov ≤
        _rank_str (if _rank_str ov < _rank_str r0.level then r0.level else ov) := by
      by_cases hc : _rank_str ov < _rank_str r0.level
      · rw [if_pos hc]; omega
      · rw [if_neg hc]
    have hr0 : _rank_str r0.level ≤
        _rank_str (if _rank_str ov < _rank_str r0.level then r0.level else ov) := by
      by_cases hc : _rank_str ov < _rank_str r0.level
      · rw [if_pos hc]
      · rw [if_neg hc]; omega
    refine ⟨?_, le_trans hov hacc, ?_⟩
    · rcases hmem with heq | hmemt
      · by_cases hc : _rank_str ov < _rank_str r0.level
        · rw [if_pos hc] at heq ⊢
          exact Or.inr (by simp [heq])
        · rw [if_neg hc] at heq ⊢
          exact Or.inl heq
      · exact Or.inr (by simp [hmemt])
    · intro r hr
      rcases List.mem_cons.1 hr with rfl | hr2
      · exact le_trans hr0 hacc
      · exact hall r hr2

/-- Python-set accumulation: nodup and exact element set. -/
lemma _set_insert_fold :
    ∀ (l acc : List String), acc.Nodup →
      (l.foldl _set_insert acc).Nodup ∧
      (l.foldl _set_insert acc).toFinset = acc.toFinset ∪ l.toFinset := by
  intro l
  induction l with
  | nil => intro acc h; simpa using h
  | cons x t ih =>
    intro acc h
    simp only [List.foldl_cons]
    have hstep : (_set_insert acc x).Nodup ∧
        (_set_insert acc x).toFinset = acc.toFinset ∪ {x} := by
      unfold _set_insert
      by_cases hx : x ∈ acc
      · rw [if_pos hx]
        refine ⟨h, ?_⟩
        have : x ∈ acc.toFinset := List.mem_toFinset.2 hx
        rw [Finset.union_comm]
        exact (Finset.union_eq_right.2 (by simpa using this)).symm
      · rw [if_neg hx]
        constructor
        · simpa [List.nodup_append] using ⟨h, hx⟩
        · simp
    obtain ⟨hnd, hset⟩ := hstep
    obtain ⟨hnd2, hset2⟩ := ih (_set_insert acc x) hnd
    refine ⟨hnd2, ?_⟩
    rw [hset2, hset]
    ext y
    simp
    tauto

/-- Full description of the `compute_risk_summary` loop. -/
lemma _sum_go_spec :
    ∀ (wps : List Waypoint) (i : Nat) (ov : String) (ids : List String)
      (legs : List RiskyLeg), ids.Nodup →
      (_sum_go i ov ids legs wps).overallRisk =
        (_leg_risks wps).foldl
          (fun o r => if _rank_str o < _rank_str r.level then r.level else o) ov ∧
      (_sum_go i ov ids legs wps).hotspotCount =
        (ids.toFinset ∪ (((_leg_risks wps).map
          (fun r => r.intersectingHotspots)).flatten).toFinset).card ∧
      (_sum_go i ov ids legs wps).riskyLegs.map (fun rl => rl.riskLevel) =
        legs.map (fun rl => rl.riskLevel) ++ (_leg_risks wps).map (fun r => r.level) ∧
      (_sum_go i ov ids legs wps).riskyLegs.map (fun rl => rl.summary) =
        legs.map (fun rl => rl.summary) ++ (_leg_risks wps).map (fun r => r.summary) ∧
      ∃ idxs, (_sum_go i ov ids legs wps).riskyLegs.map (fun rl => rl.legIndex) =
        legs.map (fun rl => rl.legIndex) ++ idxs ∧
        idxs.Pairwise (· < ·) ∧ ∀ j ∈ idxs, i ≤ j := by
  intro wps
  induction wps with
  | nil =>
    intro i ov ids legs hnd
    rw [show _sum_go i ov ids legs [] = ⟨ov, ids.length, legs⟩ from rfl,
      show _leg_risks [] = [] from rfl]
    refine ⟨rfl, ?_, by simp, by simp, [], by simp, List.Pairwise.nil, by simp⟩
    simp [List.toFinset_card_of_nodup hnd]
  | cons w rest ih =>
    intro i ov ids legs hnd
    match rest with
    | [] =>
      rw [show _sum_go i ov ids legs [w] = ⟨ov, ids.length, legs⟩ from rfl,
        show _leg_risks [w] = [] from rfl]
      refine ⟨rfl, ?_, by simp, by simp, [], by simp, List.Pairwise.nil, by simp⟩
      simp [List.toFinset_card_of_nodup hnd]
    | w2 :: rest2 =>
      cases hrisk : w.leg.bind (fun leg => leg.riskAssessment) with
      | none =>
        have hsg : _sum_go i ov ids legs (w :: w2 :: rest2) =
            _sum_go (i + 1) ov ids legs (w2 :: rest2) := by
          show (match w.leg.bind (fun l => l.riskAssessment) with
                | none => _sum_go (i + 1) ov ids legs (w2 :: rest2)
                | some risk => _sum_go (i + 1)
                    (if _rank_str ov < _rank_str risk.level then risk.level else ov)
                    (risk.intersectingHotspots.foldl _set_insert ids)
                    (legs ++ [({ legIndex := i, fromWaypointId := w.id
                                 fromWaypointName := w.name, toWaypointId := w2.id
                                 toWaypointName := w2.name, riskLevel := risk.level
                                 summary := risk.summary } : RiskyLeg)])
                    (w2 :: rest2)) = _
          rw [hrisk]
        have hlr : _leg_risks (w :: w2 :: rest2) = _leg_risks (w2 :: rest2) := by
          show (match w.leg.bind (fun l => l.riskAssessment) with
                | none => _leg_risks (w2 :: rest2)
                | some r => r :: _leg_risks (w2 :: rest2)) = _
          rw [hrisk]
        rw [hsg, hlr]
        obtain ⟨h1, h2, h3, h4, idxs, h5, h6, h7⟩ := ih (i + 1) ov ids legs hnd
        exact ⟨h1, h2, h3, h4, idxs, h5, h6, fun j hj => le_trans (by omega) (h7 j hj)⟩
      | some risk =>
        have hsg : _sum_go i ov ids legs (w :: w2 :: rest2) =
            _sum_go (i + 1)
              (if _rank_str ov < _rank_str risk.level then risk.level else ov)
              (risk.intersectingHotspots.foldl _set_insert ids)
              (legs ++ [{ legIndex := i, fromWaypointId := w.id
                          fromWaypointName := w.name, toWaypointId := w2.id
                          toWaypointName := w2.name, riskLevel := risk.level
                          summary := risk.summary }])
              (w2 :: rest2) := by
          show (match w.leg.bind (fun l => l.riskAssessment) with
                | none => _sum_go (i + 1) ov ids legs (w2 :: rest2)
                | some risk => _sum_go (i + 1)
                    (if _rank_str ov < _rank_str risk.level then risk.level else ov)
                    (risk.intersectingHotspots.foldl _set_insert ids)
                    (legs ++ [({ legIndex := i, fromWaypointId := w.id
                                 fromWaypointName := w.name, toWaypointId := w2.id
                                 toWaypointName := w2.name, riskLevel := risk.level
                                 summary := risk.summary } : RiskyLeg)])
                    (w2 :: rest2)) = _
          rw [hrisk]
        have hlr : _leg_risks (w :: w2 :: rest2) = risk :: _leg_risks (w2 :: rest2) := by
          show (match w.leg.bind (fun l => l.riskAssessment) with
                | none => _leg_risks (w2 :: rest2)
                | some r => r :: _leg_risks (w2 :: rest2)) = _
          rw [hrisk]
        rw [hsg, hlr]
        obtain ⟨hins_nd, hins_set⟩ :=
          _set_insert_fold risk.intersectingHotspots ids hnd
        obtain ⟨h1, h2, h3, h4, idxs, h5, h6, h7⟩ :=
          ih (i + 1) (if _rank_str ov < _rank_str risk.level then risk.level else ov)
            (risk.intersectingHotspots.foldl _set_insert ids)
            (legs ++ [{ legIndex := i, fromWaypointId := w.id
                        fromWaypointName := w.name, toWaypointId := w2.id
                        toWaypointName := w2.name, riskLevel := risk.level
                        summary := risk.summary }]) hins_nd
        refine ⟨by rw [h1]; rfl, ?_, by simpa using h3, by simpa using h4,
          i :: idxs, by simpa using h5, ?_, ?_⟩
        · rw [h2, hins_set]
          congr 1
          simp [Finset.union_assoc]
        · exact List.Pairwise.cons (fun j hj => by have := h7 j hj; omega) h6
        · intro j hj
          rcases List.mem_cons.1 hj with rfl | hj2
          · exact le_refl j
          · exact le_trans (by omega) (h7 j hj2)

/-- **C8**: `overallRisk` rank-dominates every risky leg's level and (for
ranked levels) is one of them; `hotspotCount` is the cardinality of the
union of intersecting ids over all legs; `riskyLegs` lists the risky legs
in traversal order (levels, summaries, strictly increasing leg indices);
a route with no risky legs yields `("low", 0, [])` without error. -/
theorem c8_overall_risk_summary (enriched_waypoints : List Waypoint) :
    (∀ r ∈ _leg_risks enriched_waypoints,
      _rank_str r.level ≤
        _rank_str (compute_risk_summary enriched_waypoints).overallRisk) ∧
    (_leg_risks enriched_waypoints ≠ [] →
      (∀ r ∈ _leg_risks enriched_waypoints,
        r.level ∈ (["low", "medium", "high"] : List String)) →
      (compute_risk_summary enriched_waypoints).overallRisk ∈
        (_leg_risks enriched_waypoints).map (fun r => r.level)) ∧
    (compute_risk_summary enriched_waypoints).hotspotCount =
      (((_leg_risks enriched_waypoints).map
        (fun r => r.intersectingHotspots)).flatten).toFinset.card ∧
    (compute_risk_summary enriched_waypoints).riskyLegs.map (fun rl => rl.riskLevel) =
      (_leg_risks enriched_waypoints).map (fun r => r.level) ∧
    (compute_risk_summary enriched_waypoints).riskyLegs.map (fun rl => rl.summary) =
      (_leg_risks enriched_waypoints).map (fun r => r.summary) ∧
    ((compute_risk_summary enriched_waypoints).riskyLegs.map
      (fun rl => rl.legIndex)).Pairwise (· < ·) ∧
    (_leg_risks enriched_waypoints = [] →
      compute_risk_summary enriched_waypoints = ⟨"low", 0, []⟩) := by
  obtain ⟨h1, h2, h3, h4, idxs, h5, h6, h7⟩ :=
    _sum_go_spec enriched_waypoints 0 "low" [] [] List.nodup_nil
  obtain ⟨hmem, hacc, hall⟩ := _fold_level_max (_leg_risks enriched_waypoints) "low"
  have hover := h1
  refine ⟨?_, ?_, by simpa using h2, by simpa using h3, by simpa using h4, ?_, ?_⟩
  · intro r hr
    rw [show compute_risk_summary enriched_waypoints =
      _sum_go 0 "low" [] [] enriched_waypoints from rfl, h1]
    exact hall r hr
  · intro hne hranked
    rw [show compute_risk_summary enriched_waypoints =
      _sum_go 0 "low" [] [] enriched_waypoints from rfl, h1]
    rcases hmem with heq | hmemt
    · rw [heq]
      obtain ⟨r0, hr0⟩ := List.exists_mem_of_ne_nil _ hne
      have hdom := hall r0 hr0
      rw [heq] at hdom
      have hr0mem := hranked r0 hr0
      simp only [List.mem_cons, List.not_mem_nil, or_false] at hr0mem
      have hlow : r0.level = "low" := by
        rcases hr0mem with hl | hl | hl
        · exact hl
        · rw [hl] at hdom; simp [_rank_str, SEVERITY_RANK, List.lookup] at hdom
        · rw [hl] at hdom; simp [_rank_str, SEVERITY_RANK, List.lookup] at hdom
      rw [show ("low" : String) = r0.level from hlow.symm]
      exact List.mem_map_of_mem (fun r => r.level) hr0
    · exact hmemt
  · rw [show compute_risk_summary enriched_waypoints =
      _sum_go 0 "low" [] [] enriched_waypoints from rfl]
    rw [show ((_sum_go 0 "low" [] [] enriched_waypoints).riskyLegs.map
      (fun rl => rl.legIndex)) = idxs by simpa using h5]
    exact h6
  · intro hempty
    have hov : (compute_risk_summary enriched_waypoints).overallRisk = "low" := by
      rw [show compute_risk_summary enriched_waypoints =
        _sum_go 0 "low" [] [] enriched_waypoints from rfl, h1, hempty]
      rfl
    have hc : (compute_risk_summary enriched_waypoints).hotspotCount = 0 := by
      rw [show compute_risk_summary enriched_waypoints =
        _sum_go 0 "low" [] [] enriched_waypoints from rfl, h2, hempty]
      simp
    have hlegs : (compute_risk_summary enriched_waypoints).riskyLegs = [] := by
      have h3a := h3
      rw [hempty] at h3a
      simp only [List.map_nil, List.append_nil] at h3a
      exact List.map_eq_nil_iff.mp h3a
    cases hsum : compute_risk_summary enriched_waypoints with
    | mk o hcnt rl =>
      rw [hsum] at hov hc hlegs
      simp only at hov hc hlegs
      rw [hov, hc, hlegs]

theorem c8_overall_risk_summary_witness :
    (∀ r ∈ _leg_risks [_ex_w0, _ex_w1],
      _rank_str r.level ≤ _rank_str (compute_risk_summary [_ex_w0, _ex_w1]).overallRisk) ∧
    (_leg_risks [_ex_w0, _ex_w1] ≠ [] →
      (∀ r ∈ _leg_risks [_ex_w0, _ex_w1],
        r.level ∈ (["low", "medium", "high"] : List String)) →
      (compute_risk_summary [_ex_w0, _ex_w1]).overallRisk ∈
        (_leg_risks [_ex_w0, _ex_w1]).map (fun r => r.level)) ∧
    (compute_risk_summary [_ex_w0, _ex_w1]).hotspotCount =
      (((_leg_risks [_ex_w0, _ex_w1]).map
        (fun r => r.intersectingHotspots)).flatten).toFinset.card ∧
    (compute_risk_summary [_ex_w0, _ex_w1]).riskyLegs.map (fun rl => rl.riskLevel) =
      (_leg_risks [_ex_w0, _ex_w1]).map (fun r => r.level) ∧
    (compute_risk_summary [_ex_w0, _ex_w1]).riskyLegs.map (fun rl => rl.summary) =
      (_leg_risks [_ex_w0, _ex_w1]).map (fun r => r.summary) ∧
    ((compute_risk_summary [_ex_w0, _ex_w1]).riskyLegs.map
      (fun rl => rl.legIndex)).Pairwise (· < ·) ∧
    (_leg_risks [_ex_w0, _ex_w1] = [] →
      compute_risk_summary [_ex_w0, _ex_w1] = ⟨"low", 0, []⟩) :=
  c8_overall_risk_summary [_ex_w0, _ex_w1]

/-! ## C2: parser error handling -/

lemma _float_attr_isOk (el : XML) (k : String) (h : _float_attr_ok el k = true) :
    ∃ q, _float_attr el k = .ok q := by
  unfold _float_attr_ok at h
  unfold _float_attr
  cases hg : el.get k with
  | none => exact ⟨0, rfl⟩
  | some s =>
    simp only [hg] at h
    obtain ⟨q, hq⟩ := Option.isSome_iff_exists.1 h
    refine ⟨q, ?_⟩
    show (match pyFloatOfString s with
      | some q2 => Except.ok q2
      | none =>
        Except.error ("ValueError: could not convert string to float: " ++ s)) =
      Except.ok q
    rw [hq]

lemma _int_attr_isOk (el : XML) (k : String) (h : _int_attr_ok el k = true) :
    ∃ n, _int_attr el k = .ok n := by
  unfold _int_attr_ok at h
  unfold _int_attr
  cases hg : el.get k with
  | none => exact ⟨0, rfl⟩
  | some s =>
    simp only [hg] at h
    obtain ⟨n, hn⟩ := Option.isSome_iff_exists.1 h
    refine ⟨n, ?_⟩
    show (match pyIntOfString s with
      | some n2 => Except.ok n2
      | none => Except.error ("ValueError: invalid literal for int: " ++ s)) =
      Except.ok n
    rw [hn]

lemma _parse_leg_isOk (legEl : Option XML) (h : _leg_ok legEl = true) :
    ∃ l, _parse_leg legEl = .ok l := by
  cases legEl with
  | none => exact ⟨none, rfl⟩
  | some el =>
    unfold _leg_ok at h
    simp only [Bool.and_eq_true] at h
    obtain ⟨⟨h1, h2⟩, h3⟩ := h
    obtain ⟨q1, hq1⟩ := _float_attr_isOk el "speedMax" h1
    obtain ⟨q2, hq2⟩ := _float_attr_isOk el "portsideXTD" h2
    obtain ⟨q3, hq3⟩ := _float_attr_isOk el "starboardXTD" h3
    have heq : _parse_leg (some el) =
        .ok (some { speedMax := some q1, portsideXTD := some q2, starboardXTD := some q3
                    geometryType := some ((el.get "geometryType").getD "Loxodrome")
                    riskAssessment := none }) := by
      unfold _parse_leg
      simp only [hq1, hq2, hq3]
    exact ⟨_, heq⟩

lemma _parse_waypoints_isOk (ns : String) (dl : Option Leg) :
    ∀ els : List XML, (∀ el ∈ els, _wp_ok ns el = true) →
      ∃ ws, _parse_waypoints ns dl els = .ok ws
  | [], _ => ⟨[], rfl⟩
  | wpEl :: rest, hall => by
    obtain ⟨tail, htail⟩ := _parse_waypoints_isOk ns dl rest
      (fun el hel => hall el (List.mem_cons_of_mem _ hel))
    have hw := hall wpEl (List.mem_cons_self _ _)
    unfold _wp_ok at hw
    cases hpos : _find wpEl "position" ns with
    | none =>
      exact ⟨tail, by unfold _parse_waypoints; simp only [hpos, htail]⟩
    | some posEl =>
      simp only [hpos, Bool.and_eq_true] at hw
      obtain ⟨⟨⟨⟨hlat, hlon⟩, hleg⟩, hid⟩, hrev⟩ := hw
      obtain ⟨lat, hlat2⟩ := _float_attr_isOk posEl "lat" hlat
      obtain ⟨lon, hlon2⟩ := _float_attr_isOk posEl "lon" hlon
      obtain ⟨leg, hleg2⟩ := _parse_leg_isOk _ hleg
      obtain ⟨wid, hid2⟩ := _int_attr_isOk wpEl "id" hid
      obtain ⟨rev, hrev2⟩ := _int_attr_isOk wpEl "revision" hrev
      cases leg with
      | none =>
        have heq : _parse_waypoints ns dl (wpEl :: rest) = Except.ok
            ({ id := wid, revision := rev
               name := (wpEl.get "name").getD ("WP_" ++ ((wpEl.get "id").getD "?"))
               lat := lat, lon := lon, leg := dl
               eta := none, legDistanceNm := 0 } :: tail) := by
          unfold _parse_waypoints
          simp only [hpos, hlat2, hlon2, hleg2, hid2, hrev2, htail]
        exact ⟨_, heq⟩
      | some l =>
        have heq : _parse_waypoints ns dl (wpEl :: rest) = Except.ok
            ({ id := wid, revision := rev
               name := (wpEl.get "name").getD ("WP_" ++ ((wpEl.get "id").getD "?"))
               lat := lat, lon := lon, leg := some l
               eta := none, legDistanceNm := 0 } :: tail) := by
          unfold _parse_waypoints
          simp only [hpos, hlat2, hlon2, hleg2, hid2, hrev2, htail]
        exact ⟨_, heq⟩

lemma _parse_schedule_elements_isOk (ns : String) :
    ∀ els : List XML, (∀ el ∈ els, _int_attr_ok el "waypointId" = true) →
      ∃ ses, _parse_schedule_elements ns els = .ok ses
  | [], _ => ⟨[], rfl⟩
  | seEl :: rest, hall => by
    obtain ⟨wid, hwid⟩ := _int_attr_isOk seEl "waypointId"
      (hall seEl (List.mem_cons_self _ _))
    obtain ⟨tail, htail⟩ := _parse_schedule_elements_isOk ns rest
      (fun el hel => hall el (List.mem_cons_of_mem _ hel))
    have heq : _parse_schedule_elements ns (seEl :: rest) =
        .ok ({ waypointId := wid, eta := (seEl.get "eta").getD "" } :: tail) := by
      unfold _parse_schedule_elements
      rw [hwid, htail]
    exact ⟨_, heq⟩

lemma _parse_schedules_isOk (ns : String) :
    ∀ els : List XML, (∀ el ∈ els, _sched_ok ns el = true) →
      ∃ ss, _parse_schedules ns els = .ok ss
  | [], _ => ⟨[], rfl⟩
  | schedEl :: rest, hall => by
    have hs := hall schedEl (List.mem_cons_self _ _)
    unfold _sched_ok at hs
    obtain ⟨tail, htail⟩ := _parse_schedules_isOk ns rest
      (fun el hel => hall el (List.mem_cons_of_mem _ hel))
    have hinner : ∃ elems, (match _find schedEl "calculated" ns with
        | none => (Except.ok [] : Except String (List ScheduleElement))
        | some calcEl =>
          _parse_schedule_elements ns (_findall calcEl "scheduleElement" ns)) =
        .ok elems := by
      cases hc : _find schedEl "calculated" ns with
      | none => exact ⟨[], rfl⟩
      | some calcEl =>
        simp only [hc] at hs
        obtain ⟨elems, helems⟩ := _parse_schedule_elements_isOk ns
          (_findall calcEl "scheduleElement" ns)
          (fun el hel => List.all_eq_true.1 hs el hel)
        exact ⟨elems, helems⟩
    obtain ⟨elems, helems⟩ := hinner
    have heq : _parse_schedules ns (schedEl :: rest) =
        .ok ({ id := (schedEl.get "id").getD "", name := (schedEl.get "name").getD ""
               elements := elems } :: tail) := by
      unfold _parse_schedules
      rw [helems, htail]
    exact ⟨_, heq⟩

/-- **C2.** Corrected: `parse_rtz` cannot fail on a well-formed element
tree *whose present numeric attributes all parse as numbers*
(`wellNumbered`), and every missing optional attribute defaults (`0` for
`float`/`int` attributes) instead of failing.  The claim as stated — that
well-formedness of the XML alone rules out failure — is refuted by
`c2_parse_error_counterexample`: a present but non-numeric attribute
raises `ValueError` from `float()`/`int()`. -/
theorem c2_parse_error_handling (hav : ℚ → ℚ → ℚ → ℚ → ℚ) (root : XML)
    (h : wellNumbered root = true) :
    (∃ doc, parse_rtz hav root = .ok doc) ∧
    (∀ (el : XML) (k : String), el.get k = none →
      _float_attr el k = .ok 0 ∧ _int_attr el k = .ok 0) := by
  constructor
  · simp only [wellNumbered, Bool.and_eq_true] at h
    obtain ⟨hwps, hscheds⟩ := h
    have hws : ∃ ws, _parse_waypoints_section (_detect_namespace root) root = .ok ws := by
      unfold _parse_waypoints_section
      cases hf : _find root "waypoints" (_detect_namespace root) with
      | none => exact ⟨[], rfl⟩
      | some wEl =>
        simp only [hf, Bool.and_eq_true] at hwps
        obtain ⟨hdl, hall⟩ := hwps
        obtain ⟨dl, hdl2⟩ := _parse_leg_isOk _ hdl
        obtain ⟨ws, hwsx⟩ := _parse_waypoints_isOk (_detect_namespace root) dl
          (_findall wEl "waypoint" (_detect_namespace root))
          (fun el hel => List.all_eq_true.1 hall el hel)
        refine ⟨ws, ?_⟩
        show (match _parse_leg ((_find wEl "defaultWaypoint" (_detect_namespace root)).bind
            fun d => _find d "leg" (_detect_namespace root)) with
          | Except.error e => Except.error e
          | Except.ok default_leg =>
            _parse_waypoints (_detect_namespace root) default_leg
              (_findall wEl "waypoint" (_detect_namespace root))) = Except.ok ws
        rw [hdl2]
        exact hwsx
    have hss : ∃ ss, _parse_schedules_section (_detect_namespace root) root = .ok ss := by
      unfold _parse_schedules_section
      cases hf : _find root "schedules" (_detect_namespace root) with
      | none => exact ⟨[], rfl⟩
      | some sEl =>
        simp only [hf] at hscheds
        exact _parse_schedules_isOk _ _ (fun el hel => List.all_eq_true.1 hscheds el hel)
    obtain ⟨ws, hws2⟩ := hws
    obtain ⟨ss, hss2⟩ := hss
    unfold parse_rtz
    rw [hws2, hss2]
    exact ⟨_, rfl⟩
  · intro el k hk
    exact ⟨by simp [_float_attr, hk], by simp [_int_attr, hk]⟩

/-- A well-formed element tree on which `parse_rtz` nevertheless fails:
the `lat` attribute is present but not a number, so the transcription of
`float(pos_el.get("lat", 0))` raises `ValueError`. -/
def _ex_badTree : XML :=
  .elem "route" [] [.elem "waypoints" [] [.elem "waypoint" [("id", "1")]
    [.elem "position" [("lat", "abc"), ("lon", "4.0")] []]]]

/-- **C2**, counterexample: a well-formed route tree (no XML parse error
is possible: `_ex_badTree` already *is* an element tree) on which
`parse_rtz` fails with a `ValueError`, refuting "for every well-formed
route-exchange XML document it returns a RouteDocument without
failing". -/
theorem c2_parse_error_counterexample :
    parse_rtz (fun _ _ _ _ => 0) _ex_badTree =
      .error "ValueError: could not convert string to float: abc" := by
  decide

def _ex_goodTree : XML :=
  .elem "route" [("version", "1.1")]
    [.elem "waypoints" []
      [.elem "defaultWaypoint" [] [.elem "leg" [("speedMax", "12.5")] []],
       .elem "waypoint" [("id", "1"), ("name", "Start")]
         [.elem "position" [("lat", "55.5"), ("lon", "12.5")] []],
       .elem "waypoint" [("id", "2")]
         [.elem "position" [("lat", "55.9"), ("lon", "13.0")] []]],
     .elem "schedules" []
      [.elem "schedule" [("id", "S1")]
        [.elem "calculated" []
          [.elem "scheduleElement" [("waypointId", "2"), ("eta", "2026-04-27T07:30:00Z")] []]]]]

/-- **C2**, witness: the amended totality theorem applied to a concrete
well-numbered route tree. -/
theorem c2_parse_error_handling_witness :
    wellNumbered _ex_goodTree = true ∧
    ((∃ doc, parse_rtz (fun _ _ _ _ => 0) _ex_goodTree = .ok doc) ∧
     (∀ (el : XML) (k : String), el.get k = none →
       _float_attr el k = .ok 0 ∧ _int_attr el k = .ok 0)) :=
  ⟨by decide, c2_parse_error_handling (fun _ _ _ _ => 0) _ex_goodTree (by decide)⟩

/-! ## C9: distance stamping and rounding -/

lemma _stamp_go_spec (hav : ℚ → ℚ → ℚ → ℚ → ℚ) :
    ∀ (l : List Waypoint) (prev : Waypoint),
      (∀ b, (_stamp_go hav prev l)[0]? = some b →
        b.legDistanceNm = pyRound1 (hav prev.lat prev.lon b.lat b.lon)) ∧
      (∀ i a b, (_stamp_go hav prev l)[i]? = some a →
        (_stamp_go hav prev l)[i + 1]? = some b →
        b.legDistanceNm = pyRound1 (hav a.lat a.lon b.lat b.lon))
  | [], prev => by
    constructor
    · intro b hb
      simp [_stamp_go] at hb
    · intro i a b ha _
      simp [_stamp_go] at ha
  | y :: t, prev => by
    have ih := _stamp_go_spec hav t y
    constructor
    · intro b hb
      simp only [_stamp_go, List.getElem?_cons_zero, Option.some.injEq] at hb
      subst hb
      rfl
    · intro i a b ha hb
      cases i with
      | zero =>
        simp only [_stamp_go, List.getElem?_cons_zero, Option.some.injEq] at ha
        simp only [_stamp_go, List.getElem?_cons_succ] at hb
        subst ha
        exact ih.1 b hb
      | succ j =>
        simp only [_stamp_go, List.getElem?_cons_succ] at ha hb
        exact ih.2 j a b ha hb

lemma _stamp_leg_distances_spec (hav : ℚ → ℚ → ℚ → ℚ → ℚ) (l : List Waypoint) :
    (∀ w, (_stamp_leg_distances hav l)[0]? = some w → w.legDistanceNm = 0) ∧
    (∀ i a b, (_stamp_leg_distances hav l)[i]? = some a →
      (_stamp_leg_distances hav l)[i + 1]? = some b →
      b.legDistanceNm = pyRound1 (hav a.lat a.lon b.lat b.lon)) := by
  cases l with
  | nil =>
    constructor
    · intro w hw
      simp [_stamp_leg_distances] at hw
    · intro i a b ha _
      simp [_stamp_leg_distances] at ha
  | cons a0 t =>
    have hgo := _stamp_go_spec hav t a0
    constructor
    · intro w hw
      simp only [_stamp_leg_distances, List.getElem?_cons_zero, Option.some.injEq] at hw
      subst hw
      rfl
    · intro i a b ha hb
      cases i with
      | zero =>
        simp only [_stamp_leg_distances, List.getElem?_cons_zero, Option.some.injEq] at ha
        simp only [_stamp_leg_distances, List.getElem?_cons_succ] at hb
        subst ha
        exact hgo.1 b hb
      | succ j =>
        simp only [_stamp_leg_distances, List.getElem?_cons_succ] at ha hb
        exact hgo.2 j a b ha hb

lemma _total_unrounded_congr (hav : ℚ → ℚ → ℚ → ℚ → ℚ) :
    ∀ l1 l2 : List Waypoint,
      l1.map (fun w => (w.lat, w.lon)) = l2.map (fun w => (w.lat, w.lon)) →
      _total_unrounded hav l1 = _total_unrounded hav l2
  | [], [], _ => rfl
  | [], _ :: _, h => by simp at h
  | _ :: _, [], h => by simp at h
  | [_], [_], _ => rfl
  | [_], _ :: _ :: _, h => by simp at h
  | _ :: _ :: _, [_], h => by simp at h
  | a :: c :: t, b :: d :: s, h => by
    simp only [List.map_cons, List.cons.injEq, Prod.mk.injEq] at h
    obtain ⟨⟨h1, h2⟩, ⟨h3, h4⟩, h5⟩ := h
    show hav a.lat a.lon c.lat c.lon + _total_unrounded hav (c :: t) =
      hav b.lat b.lon d.lat d.lon + _total_unrounded hav (d :: s)
    rw [h1, h2, h3, h4]
    congr 1
    exact _total_unrounded_congr hav (c :: t) (d :: s) (by
      simp only [List.map_cons, List.cons.injEq, Prod.mk.injEq]
      exact ⟨⟨h3, h4⟩, h5⟩)

lemma _stamp_go_latlon (hav : ℚ → ℚ → ℚ → ℚ → ℚ) :
    ∀ (l : List Waypoint) (prev : Waypoint),
      (_stamp_go hav prev l).map (fun w => (w.lat, w.lon)) =
        l.map (fun w => (w.lat, w.lon))
  | [], _ => rfl
  | b :: t, prev => by
    simp only [_stamp_go, List.map_cons]
    rw [_stamp_go_latlon hav t b]

lemma _total_stamp (hav : ℚ → ℚ → ℚ → ℚ → ℚ) (l : List Waypoint) :
    _total_unrounded hav (_stamp_leg_distances hav l) = _total_unrounded hav l := by
  refine _total_unrounded_congr hav _ _ ?_
  cases l with
  | nil => rfl
  | cons a t =>
    simp only [_stamp_leg_distances, List.map_cons]
    rw [_stamp_go_latlon hav t a]

lemma parse_rtz_shape (hav : ℚ → ℚ → ℚ → ℚ → ℚ) (root : XML) (doc : RouteDocument)
    (h : parse_rtz hav root = .ok doc) :
    ∃ wps1 : List Waypoint,
      doc.waypoints = _stamp_leg_distances hav wps1 ∧
      doc.totalDistanceNm = pyRound1 (_total_unrounded hav wps1) := by
  unfold parse_rtz at h
  cases h1 : _parse_waypoints_section (_detect_namespace root) root with
  | error e =>
    simp only [h1] at h
    exact Except.noConfusion h
  | ok wps0 =>
    simp only [h1] at h
    cases h2 : _parse_schedules_section (_detect_namespace root) root with
    | error e =>
      simp only [h2] at h
      exact Except.noConfusion h
    | ok ss =>
      simp only [h2] at h
      injection h with h
      subst h
      exact ⟨_, rfl, rfl⟩

def _c9_hav : ℚ → ℚ → ℚ → ℚ → ℚ := fun _ _ _ _ => 7 / 50

def _ex_tree3 : XML :=
  .elem "route" [] [.elem "waypoints" []
    [.elem "waypoint" [("id", "1")] [.elem "position" [("lat", "0"), ("lon", "0")] []],
     .elem "waypoint" [("id", "2")] [.elem "position" [("lat", "1"), ("lon", "1")] []],
     .elem "waypoint" [("id", "3")] [.elem "position" [("lat", "2"), ("lon", "2")] []]]]

set_option maxRecDepth 80000 in
unseal Rat.mul Rat.add Rat.sub Rat.inv in
/-- **C9.**  Confirmed, for an arbitrary leg-distance function `hav` in
place of the floating-point haversine: in every successfully parsed
document the first waypoint carries `legDistanceNm = 0`, every later
waypoint carries the `hav`-distance from its predecessor rounded to one
decimal (`pyRound1`, round-half-to-even), and `totalDistanceNm` is the
*unrounded* sum over consecutive pairs rounded once at the end.  The
second conjunct exhibits the claimed asymmetry on a concrete document:
with constant leg distance `0.14`, the total `0.3` differs from the sum
`0.2` of the rounded per-leg values. -/
theorem c9_distance_rounding :
    (∀ (hav : ℚ → ℚ → ℚ → ℚ → ℚ) (root : XML) (doc : RouteDocument),
      parse_rtz hav root = .ok doc →
      (∀ w, doc.waypoints[0]? = some w → w.legDistanceNm = 0) ∧
      (∀ i a b, doc.waypoints[i]? = some a → doc.waypoints[i + 1]? = some b →
        b.legDistanceNm = pyRound1 (hav a.lat a.lon b.lat b.lon)) ∧
      doc.totalDistanceNm = pyRound1 (_total_unrounded hav doc.waypoints)) ∧
    (parse_rtz _c9_hav _ex_tree3).map
        (fun doc => decide (doc.totalDistanceNm =
          (doc.waypoints.map fun w => w.legDistanceNm).sum)) = .ok false := by
  constructor
  · intro hav root doc h
    obtain ⟨wps1, hw, ht⟩ := parse_rtz_shape hav root doc h
    refine ⟨?_, ?_, ?_⟩
    · intro w hw0
      rw [hw] at hw0
      exact (_stamp_leg_distances_spec hav wps1).1 w hw0
    · intro i a b ha hb
      rw [hw] at ha hb
      exact (_stamp_leg_distances_spec hav wps1).2 i a b ha hb
    · rw [ht, hw, _total_stamp]
  · decide

def _dummy_doc : RouteDocument :=
  { rtzVersion := "", routeInfo := none, waypoints := [], schedules := []
    totalDistanceNm := 0, waypointCount := 0 }

def _ex_doc9 : RouteDocument :=
  (parse_rtz _c9_hav _ex_tree3).toOption.getD _dummy_doc

set_option maxRecDepth 80000 in
unseal Rat.mul Rat.add Rat.sub Rat.inv in
/-- **C9**, witness: the distance invariant instantiated on the concrete
three-waypoint document. -/
theorem c9_distance_rounding_witness :
    parse_rtz _c9_hav _ex_tree3 = .ok _ex_doc9 ∧
    ((∀ w, _ex_doc9.waypoints[0]? = some w → w.legDistanceNm = 0) ∧
     (∀ i a b, _ex_doc9.waypoints[i]? = some a →
       _ex_doc9.waypoints[i + 1]? = some b →
       b.legDistanceNm = pyRound1 (_c9_hav a.lat a.lon b.lat b.lon)) ∧
     _ex_doc9.totalDistanceNm = pyRound1 (_total_unrounded _c9_hav _ex_doc9.waypoints)) :=
  ⟨by decide, c9_distance_rounding.1 _c9_hav _ex_tree3 _ex_doc9 (by decide)⟩

end RoutePipeline
